import Mathlib

set_option autoImplicit false

/-!
Verification of the SurveyKit advanced-pipeline core
(`surveykit/validate_data.py`, `surveykit/validate_charts.py`,
`surveykit/integrity.py`) against its natural-language specification.

Modelling conventions (shallow embedding of the Python code):

* Machine floats are modelled as exact fractions (`Frac`, an integer
  numerator with a natural-number denominator, compared by
  cross-multiplication).  This keeps every definition kernel-executable.
* A pandas `DataFrame` is an ordered header of (column name, inferred
  dtype) pairs together with row-major cell lists; cells are `null`
  (NaN/None), integers, floats, strings or booleans.
* SHA-256 is modelled as an injective function of its input — the spec's
  own idealisation ("no two distinct contents may be assumed to
  collide") — realised as the identity on the hashed byte string.
  Equal inputs give equal digests in any model; distinct inputs give
  distinct digests under the collision-freeness assumption.
* Fallible Python code (KeyError / TypeError propagation) is embedded
  with `Except PyErr`; a `ValidationError` raised by the halt policy is
  the `Except String` layer inside the validation outcome.
* Python text formatting that no claim depends on byte-for-byte (the
  textual form of a float inside a CSV file or a JSON timestamp) is
  abstracted by fixed total encoder functions.
-/

/-- Exceptions propagated by the embedded pandas-level code. -/
inductive PyErr where
  | keyError (msg : String)
  | typeError
deriving DecidableEq

/-- Exact fraction standing in for a Python float: numerator over a
natural denominator, not necessarily reduced; ordering and equality are
by cross-multiplication.  Every operation below is kernel-executable. -/
structure Frac where
  num : Int
  den : Nat
deriving DecidableEq

def Frac.ofInt (n : Int) : Frac := ⟨n, 1⟩

def Frac.add (a b : Frac) : Frac := ⟨a.num * b.den + b.num * a.den, a.den * b.den⟩

def Frac.sub (a b : Frac) : Frac := ⟨a.num * b.den - b.num * a.den, a.den * b.den⟩

/-- Absolute value (denominators are kept non-negative by construction). -/
def Frac.fabs (a : Frac) : Frac := ⟨Int.ofNat a.num.natAbs, a.den⟩

/-- Value-level `≤` (correct whenever both denominators are positive). -/
def Frac.leVal (a b : Frac) : Bool := a.num * b.den ≤ b.num * a.den

/-- Value-level `<` (correct whenever both denominators are positive). -/
def Frac.ltVal (a b : Frac) : Bool := a.num * b.den < b.num * a.den

/-- Value-level `==` (correct whenever both denominators are positive). -/
def Frac.eqVal (a b : Frac) : Bool := a.num * b.den == b.num * a.den

/-- Division by a natural number (used for the `mean` aggregation). -/
def Frac.divNat (a : Frac) (n : Nat) : Frac := ⟨a.num, a.den * n⟩

def Frac.maxVal (a b : Frac) : Frac := if Frac.leVal a b then b else a

def Frac.toRat (a : Frac) : ℚ := (a.num : ℚ) / (a.den : ℚ)

/-- One cell of a dataframe.  `null` is pandas NaN/None. -/
inductive Cell where
  | null
  | int (i : Int)
  | rat (f : Frac)
  | str (s : String)
  | bool (b : Bool)
deriving DecidableEq

def Cell.isNull : Cell → Bool
  | .null => true
  | _ => false

/-- Numeric content of a cell, if any (booleans count as 0/1, as in
numpy arithmetic and comparisons). -/
def Cell.num? : Cell → Option Frac
  | .int i => some (Frac.ofInt i)
  | .rat f => some f
  | .bool b => some (Frac.ofInt (cond b 1 0))
  | _ => none

/-- Python `==` on cell values: numeric values compare by value
(`1 == 1.0 == True`), strings compare as strings, NaN/None is unequal
to everything (pandas semantics for missing data). -/
def cellEqPy (a b : Cell) : Bool :=
  match a.num?, b.num? with
  | some x, some y => Frac.eqVal x y
  | _, _ =>
    match a, b with
    | .str s, .str t => s == t
    | _, _ => false

/-- pandas inferred dtype of a column. -/
inductive Dtype where
  | int64
  | float64
  | object
  | boolDt
  | datetime64
  | category
deriving DecidableEq

/-- `str(series.dtype)`. -/
def Dtype.repr : Dtype → String
  | .int64 => "int64"
  | .float64 => "float64"
  | .object => "object"
  | .boolDt => "bool"
  | .datetime64 => "datetime64[ns]"
  | .category => "category"

/-- A pandas DataFrame: ordered named, typed columns and row-major
cells.  Well-formed frames are rectangular; a short row reads `null`
past its end. -/
structure DataFrame where
  header : List (String × Dtype)
  rows : List (List Cell)
deriving DecidableEq

def DataFrame.colNames (df : DataFrame) : List String := df.header.map Prod.fst

def DataFrame.colIndex (df : DataFrame) (name : String) : Option Nat :=
  df.header.findIdx? (fun h => h.1 == name)

def cellAt (r : List Cell) (i : Nat) : Cell := (r.get? i).getD .null

/-- The cells of column `i`, top to bottom. -/
def DataFrame.colCells (df : DataFrame) (i : Nat) : List Cell :=
  df.rows.map (cellAt · i)

def dropNa (cells : List Cell) : List Cell := cells.filter (fun c => !c.isNull)

-- ---------------------------------------------------------------------------
-- Canonical CSV serialisation and the Data Signature (`_hash_dataframe`)
-- ---------------------------------------------------------------------------

def csvNeedsQuote (s : String) : Bool :=
  s.data.any (fun c => c == ',' || c == '"' || c.toNat == 10 || c.toNat == 13)

def csvEscape (s : String) : String :=
  String.mk (s.data.foldr (fun c acc => if c == '"' then '"' :: '"' :: acc else c :: acc) [])

/-- Textual form of a float cell in a CSV file.  The exact digits pandas
prints for a non-integral float are abstracted; what matters for the
claims is that the text is a fixed function of the stored value. -/
def fracText (f : Frac) : String :=
  if f.den == 1 then toString f.num ++ ".0" else toString f.num ++ "/" ++ toString f.den

/-- One CSV field, as written by `DataFrame.to_csv` (QUOTE_MINIMAL). -/
def Cell.csvText : Cell → String
  | .null => ""
  | .int i => toString i
  | .rat f => fracText f
  | .bool b => cond b "True" "False"
  | .str s => if csvNeedsQuote s then "\"" ++ csvEscape s ++ "\"" else s

def joinComma : List String → String
  | [] => ""
  | [s] => s
  | s :: rest => s ++ "," ++ joinComma rest

def csvRow (r : List Cell) : String := joinComma (r.map Cell.csvText) ++ "\n"

def csvBody : List (List Cell) → String
  | [] => ""
  | r :: rs => csvRow r ++ csvBody rs

/-- `df.to_csv(index=False)`: a header line followed by one line per row. -/
def toCsv (df : DataFrame) : String :=
  joinComma df.colNames ++ "\n" ++ csvBody df.rows

/-- SHA-256, modelled as an injective digest of the hashed text (the
spec's collision-freeness idealisation, realised as the identity). -/
def sha256 (s : String) : String := s

/-- `_hash_dataframe`: the Data Signature of a dataset. -/
def hash_dataframe (df : DataFrame) : String := sha256 (toCsv df)

-- ---------------------------------------------------------------------------
-- Total orders used to model pandas/python sorting
-- ---------------------------------------------------------------------------

def charListLe : List Char → List Char → Bool
  | [], _ => true
  | _ :: _, [] => false
  | a :: as, b :: bs =>
    if a.toNat < b.toNat then true
    else if b.toNat < a.toNat then false
    else charListLe as bs

def strLe (s t : String) : Bool := charListLe s.data t.data

/-- Total comparison on cells used to model `sort_values` and `sorted`:
numeric values compare by value, strings lexicographically, NaN sorts
last (pandas default).  Mixed non-numeric ranks are fixed arbitrarily;
pandas would raise there, which no modelled dataset exercises. -/
def cellLe (a b : Cell) : Bool :=
  match a.num?, b.num? with
  | some x, some y => Frac.leVal x y
  | some _, none => true
  | none, some _ => false
  | none, none =>
    match a, b with
    | .str s, .str t => strLe s t
    | .null, _ => false
    | _, _ => true

def insertionInsert {α : Type} (le : α → α → Bool) (x : α) : List α → List α
  | [] => [x]
  | y :: ys => if le y x then y :: insertionInsert le x ys else x :: y :: ys

def insertionSort {α : Type} (le : α → α → Bool) : List α → List α
  | [] => []
  | x :: xs => insertionInsert le x (insertionSort le xs)

def sortStrings (l : List String) : List String := insertionSort strLe l

-- ---------------------------------------------------------------------------
-- validate_data.py : schema model
-- ---------------------------------------------------------------------------

/-- `ColumnSchema` (numeric bounds are floats; allowed values are
arbitrary cell values). -/
structure ColumnSchema where
  name : String
  dtype : String
  required : Bool := true
  nullable : Bool := true
  allowed_values : Option (List Cell) := none
  minimum : Option Frac := none
  maximum : Option Frac := none
  notes : Option String := none
deriving DecidableEq

/-- `SchemaDefinition`. -/
structure SchemaDefinition where
  columns : List ColumnSchema
  version : Option String := none
  description : Option String := none
deriving DecidableEq

/-- Structured context of a `ValidationIssue` (the source stores a
heterogeneous dict; each issue kind populates a fixed shape). -/
inductive VCtx where
  | empty
  | nullCount (null_count : Nat)
  | dtypeObs (observed expected : String)
  | invalidValues (invalid_values : List Cell)
  | belowMin (minimum : Frac) (count : Nat)
  | aboveMax (maximum : Frac) (count : Nat)
deriving DecidableEq

structure ValidationIssue where
  level : String
  column : Option String
  message : String
  context : VCtx := .empty
deriving DecidableEq

def ValidationIssue.isError (i : ValidationIssue) : Bool := i.level == "ERROR"

structure ValidationReport where
  issues : List ValidationIssue
  data_signature : String
  schema_version : Option String := none
  validated_at : Nat := 0
deriving DecidableEq

def ValidationReport.errors (r : ValidationReport) : List ValidationIssue :=
  r.issues.filter ValidationIssue.isError

def ValidationReport.warnings (r : ValidationReport) : List ValidationIssue :=
  r.issues.filter (fun i => i.level == "WARN")

def ValidationReport.hasErrors (r : ValidationReport) : Bool := !r.errors.isEmpty

def lowerChar (c : Char) : Char :=
  if 65 ≤ c.toNat && c.toNat ≤ 90 then Char.ofNat (c.toNat + 32) else c

def lowerStr (s : String) : String := String.mk (s.data.map lowerChar)

/-- `_series_has_dtype` via `_PANDAS_TYPE_CHECKS`: `none` means the
declared dtype is unsupported (the Python code raises `ValueError`,
which the caller converts into an ERROR issue). -/
def series_has_dtype (dt : Dtype) (expected : String) : Option Bool :=
  match lowerStr expected with
  | "integer" => some (dt == .int64)
  | "float" => some (dt == .float64)
  | "number" => some (dt == .float64 || dt == .int64)
  | "string" => some (dt == .object)
  | "boolean" => some (dt == .boolDt)
  | "datetime" => some (dt == .datetime64)
  | "category" => some (dt == .category)
  | _ => none

-- ---------------------------------------------------------------------------
-- validate_data.py : validate_dataframe
-- ---------------------------------------------------------------------------

/-- The numeric values of a list of cells; `none` if any cell is
non-numeric. -/
def numsOf : List Cell → Option (List Frac)
  | [] => some []
  | c :: cs =>
    match c.num? with
    | none => none
    | some f => (numsOf cs).map (f :: ·)

/-- Count of non-null cells strictly below / above the bound `m`
(`(series.dropna() < m).sum()`); a non-numeric non-null cell makes the
whole elementwise comparison raise `TypeError`, as under numpy. -/
def seriesCmpCount (cells : List Cell) (m : Frac) (below : Bool) : Except PyErr Nat :=
  match numsOf (dropNa cells) with
  | none => .error .typeError
  | some fs =>
    .ok (fs.filter (fun f => if below then Frac.ltVal f m else Frac.ltVal m f)).length

/-- Distinct cell values, in order of first appearance
(`series.unique()`; single-dtype columns make structural and Python
value equality agree here). -/
def distinctCells : List Cell → List Cell
  | [] => []
  | c :: cs => if c ∈ distinctCells cs then distinctCells cs else c :: distinctCells cs

/-- Distinct non-null observed values outside the allowed set, sorted
(`sorted(set(series.dropna().unique()) - set(allowed))`).  Membership in
the allowed set uses Python `==`. -/
def invalidValuesOf (cells : List Cell) (allowed : List Cell) : List Cell :=
  insertionSort cellLe
    ((distinctCells (dropNa cells)).filter (fun v => !(allowed.any (cellEqPy v))))

def nullIssues (name : String) (col : ColumnSchema) (cells : List Cell) :
    List ValidationIssue :=
  if !col.nullable && (cells.any Cell.isNull) then
    [⟨"ERROR", some name, "Null values not permitted",
      .nullCount (cells.filter Cell.isNull).length⟩]
  else []

def dtypeIssues (name : String) (col : ColumnSchema) (dt : Dtype) :
    List ValidationIssue :=
  match series_has_dtype dt col.dtype with
  | none => [⟨"ERROR", some name, "Unsupported dtype in schema: " ++ col.dtype, .empty⟩]
  | some true => []
  | some false =>
    [⟨"ERROR", some name, "Unexpected dtype", .dtypeObs dt.repr col.dtype⟩]

def allowedIssues (name : String) (col : ColumnSchema) (cells : List Cell) :
    List ValidationIssue :=
  match col.allowed_values with
  | none => []
  | some allowed =>
    let invalid := invalidValuesOf cells allowed
    if invalid.isEmpty then []
    else [⟨"ERROR", some name, "Values outside allowed set", .invalidValues invalid⟩]

def minIssues (name : String) (col : ColumnSchema) (cells : List Cell) :
    Except PyErr (List ValidationIssue) :=
  match col.minimum with
  | none => .ok []
  | some m =>
    match seriesCmpCount cells m true with
    | .error e => .error e
    | .ok n =>
      .ok (if n ≠ 0 then
        [⟨"ERROR", some name, "Values below minimum", .belowMin m n⟩]
      else [])

def maxIssues (name : String) (col : ColumnSchema) (cells : List Cell) :
    Except PyErr (List ValidationIssue) :=
  match col.maximum with
  | none => .ok []
  | some m =>
    match seriesCmpCount cells m false with
    | .error e => .error e
    | .ok n =>
      .ok (if n ≠ 0 then
        [⟨"ERROR", some name, "Values above maximum", .aboveMax m n⟩]
      else [])

/-- The issues contributed by one declared column whose lookup in the
dataset gave `idx` (the body of the `for col_schema in schema.columns`
loop). -/
def columnIssuesAt (df : DataFrame) (col : ColumnSchema) :
    Option Nat → Except PyErr (List ValidationIssue)
  | none =>
    .ok (if col.required then
      [⟨"ERROR", some col.name, "Missing required column", .empty⟩]
    else
      [⟨"WARN", some col.name, "Optional column missing", .empty⟩])
  | some i =>
    let dt := ((df.header.get? i).map Prod.snd).getD .object
    let cells := df.colCells i
    match minIssues col.name col cells with
    | .error e => .error e
    | .ok minIss =>
      match maxIssues col.name col cells with
      | .error e => .error e
      | .ok maxIss =>
        .ok (nullIssues col.name col cells ++ dtypeIssues col.name col dt ++
          allowedIssues col.name col cells ++ minIss ++ maxIss)

/-- The issues contributed by one declared column. -/
def columnIssues (df : DataFrame) (col : ColumnSchema) :
    Except PyErr (List ValidationIssue) :=
  columnIssuesAt df col (df.colIndex col.name)

def declaredIssues (df : DataFrame) : List ColumnSchema →
    Except PyErr (List ValidationIssue)
  | [] => .ok []
  | c :: cs =>
    match columnIssues df c with
    | .error e => .error e
    | .ok l =>
      match declaredIssues df cs with
      | .error e => .error e
      | .ok r => .ok (l ++ r)

/-- Dataset columns not declared in the schema, as a sorted set. -/
def extraColumns (df : DataFrame) (schema : SchemaDefinition) : List String :=
  sortStrings
    ((df.colNames.eraseDups).filter
      (fun n => !(schema.columns.any (fun c => c.name == n))))

def extraIssues (df : DataFrame) (schema : SchemaDefinition) : List ValidationIssue :=
  (extraColumns df schema).map
    (fun n => ⟨"WARN", some n, "Unexpected column present", .empty⟩)

/-- All issues produced by `validate_dataframe`, in emission order. -/
def buildIssues (df : DataFrame) (schema : SchemaDefinition) :
    Except PyErr (List ValidationIssue) :=
  match declaredIssues df schema.columns with
  | .error e => .error e
  | .ok l => .ok (l ++ extraIssues df schema)

/-- The one line appended to the audit log (a JSON object holding a
timestamp and the full report; the exact JSON text is produced by this
fixed encoder). -/
def logLine (now : Nat) (report : ValidationReport) : String :=
  "\x7b\"ts\": " ++ toString now ++ ", \"error_count\": " ++
    toString report.errors.length ++ ", \"data_signature\": \"" ++
    report.data_signature ++ "\"\x7d"

/-- Outcome of one `validate_dataframe` call: the audit-log lines it
appended (empty when no log path is configured) and either the returned
report or the message of the raised aggregate `ValidationError`. -/
structure RunResult where
  log : List String
  outcome : Except String ValidationReport

/-- `validate_dataframe`.  The wall clock is passed explicitly as
`now`; `logConfigured` models `log_path is not None`. -/
def validate_dataframe (df : DataFrame) (schema : SchemaDefinition)
    (logConfigured : Bool) (now : Nat) (halt_on_error : Bool) :
    Except PyErr RunResult :=
  match buildIssues df schema with
  | .error e => .error e
  | .ok issues =>
    let report : ValidationReport :=
      ⟨issues, hash_dataframe df, schema.version, now⟩
    .ok
      { log := if logConfigured then [logLine now report] else []
        outcome :=
          if halt_on_error && report.hasErrors then
            .error ("Validation failed with " ++ toString report.errors.length ++
              " error(s)")
          else .ok report }

-- ---------------------------------------------------------------------------
-- Spec-side satisfaction predicate (written from the specification text)
-- ---------------------------------------------------------------------------

/-- Whether one declared column's constraints are strictly satisfied by
the dataset, following the specification's wording (§4.2): a required
column must be present; a present column must contain no nulls unless
nullable, must carry a supported declared dtype that its inferred dtype
satisfies, must take only allowed values, and must respect the declared
numeric bounds on its non-null values. -/
def columnSatisfiedAt (df : DataFrame) (col : ColumnSchema) : Option Nat → Bool
  | none => !col.required
  | some i =>
    let dt := ((df.header.get? i).map Prod.snd).getD .object
    let cells := df.colCells i
    (col.nullable || !(cells.any Cell.isNull)) &&
    (match series_has_dtype dt col.dtype with
     | none => false
     | some ok => ok) &&
    (match col.allowed_values with
     | none => true
     | some allowed => (dropNa cells).all (fun v => allowed.any (cellEqPy v))) &&
    (match col.minimum with
     | none => true
     | some m => (dropNa cells).all (fun v => !((Cell.num? v).map (Frac.ltVal · m)).getD false)) &&
    (match col.maximum with
     | none => true
     | some m => (dropNa cells).all (fun v => !((Cell.num? v).map (Frac.ltVal m ·)).getD false))

/-- Whether one declared column's constraints are strictly satisfied. -/
def columnSatisfied (df : DataFrame) (col : ColumnSchema) : Bool :=
  columnSatisfiedAt df col (df.colIndex col.name)

/-- The dataset strictly satisfies every required/nullable/dtype/range/
allowed-value constraint declared in its schema (specification §3). -/
def schemaStrictlySatisfied (df : DataFrame) (schema : SchemaDefinition) : Bool :=
  schema.columns.all (columnSatisfied df)

-- ---------------------------------------------------------------------------
-- Lemmas: the validator's error set is empty iff the schema is satisfied
-- ---------------------------------------------------------------------------

theorem insertionInsert_ne_nil {α : Type} (le : α → α → Bool) (x : α) (l : List α) :
    insertionInsert le x l ≠ [] := by
  cases l with
  | nil => simp [insertionInsert]
  | cons y ys =>
    simp only [insertionInsert]
    split <;> simp

theorem insertionSort_eq_nil_iff {α : Type} (le : α → α → Bool) (l : List α) :
    insertionSort le l = [] ↔ l = [] := by
  cases l with
  | nil => simp [insertionSort]
  | cons x xs => simp [insertionSort, insertionInsert_ne_nil]

theorem mem_distinctCells (l : List Cell) : ∀ c : Cell, c ∈ distinctCells l ↔ c ∈ l := by
  induction l with
  | nil => simp [distinctCells]
  | cons x xs ih =>
    intro c
    by_cases h : x ∈ distinctCells xs
    · rw [distinctCells, if_pos h, ih]
      have hx : x ∈ xs := (ih x).mp h
      constructor
      · intro hc
        exact List.mem_cons_of_mem _ hc
      · intro hc
        rcases List.mem_cons.mp hc with h1 | h1
        · subst h1; exact hx
        · exact h1
    · rw [distinctCells, if_neg h]
      simp [List.mem_cons, ih]

theorem numsOf_pred (P : Frac → Bool) (l : List Cell) : ∀ fs, numsOf l = some fs →
    (((fs.filter P).length = 0) ↔
      l.all (fun v => !((Cell.num? v).map P).getD false) = true) := by
  induction l with
  | nil =>
    intro fs h
    simp [numsOf] at h
    subst h
    simp
  | cons c cs ih =>
    intro fs h
    simp only [numsOf] at h
    cases hc : c.num? with
    | none => rw [hc] at h; simp at h
    | some f =>
      rw [hc] at h
      simp only [Option.map_eq_some'] at h
      obtain ⟨gs, hgs, hfs⟩ := h
      subst hfs
      by_cases hp : P f = true
      · simp [List.filter_cons, hp, hc]
      · simp only [List.filter_cons, Bool.not_eq_true] at hp ⊢
        simp [hp, hc, ih gs hgs]

theorem nullIssues_empty (name : String) (col : ColumnSchema) (cells : List Cell) :
    nullIssues name col cells = [] ↔
      (col.nullable || !(cells.any Cell.isNull)) = true := by
  unfold nullIssues
  cases hn : col.nullable <;> cases ha : cells.any Cell.isNull <;> simp [hn, ha]

theorem dtypeIssues_empty (name : String) (col : ColumnSchema) (dt : Dtype) :
    dtypeIssues name col dt = [] ↔
      (match series_has_dtype dt col.dtype with
       | none => false
       | some ok => ok) = true := by
  unfold dtypeIssues
  cases h : series_has_dtype dt col.dtype with
  | none => simp
  | some ok => cases ok <;> simp

theorem allowedIssues_empty (name : String) (col : ColumnSchema) (cells : List Cell) :
    allowedIssues name col cells = [] ↔
      (match col.allowed_values with
       | none => true
       | some allowed => (dropNa cells).all (fun v => allowed.any (cellEqPy v))) = true := by
  unfold allowedIssues
  cases hav : col.allowed_values with
  | none => simp
  | some allowed =>
    simp only
    have hinv : invalidValuesOf cells allowed = [] ↔
        (dropNa cells).all (fun v => allowed.any (cellEqPy v)) = true := by
      unfold invalidValuesOf
      rw [insertionSort_eq_nil_iff, List.filter_eq_nil_iff]
      simp only [Bool.not_eq_true', Bool.not_eq_false]
      constructor
      · intro h
        rw [List.all_eq_true]
        intro v hv
        exact h v ((mem_distinctCells _ v).mpr hv)
      · intro h v hv
        exact (List.all_eq_true.mp h) v ((mem_distinctCells _ v).mp hv)
    by_cases hall : (dropNa cells).all (fun v => allowed.any (cellEqPy v)) = true
    · rw [if_pos (by rw [List.isEmpty_iff]; exact hinv.mpr hall)]
      simp [hall]
    · rw [if_neg (by rw [List.isEmpty_iff]; exact fun h => hall (hinv.mp h))]
      simp [hall]

theorem minIssues_ok_empty (name : String) (col : ColumnSchema) (cells : List Cell)
    (l : List ValidationIssue) (h : minIssues name col cells = .ok l) :
    l = [] ↔
      (match col.minimum with
       | none => true
       | some m =>
         (dropNa cells).all
           (fun v => !((Cell.num? v).map (Frac.ltVal · m)).getD false)) = true := by
  unfold minIssues at h
  cases hm : col.minimum with
  | none =>
    rw [hm] at h
    simp at h
    subst h
    simp
  | some m =>
    rw [hm] at h
    unfold seriesCmpCount at h
    cases hn : numsOf (dropNa cells) with
    | none => rw [hn] at h; simp at h
    | some fs =>
      rw [hn] at h
      simp only [Except.ok.injEq] at h
      subst h
      simp only
      rw [← numsOf_pred (fun f => Frac.ltVal f m) (dropNa cells) fs hn]
      by_cases hz :
          (fs.filter (fun f => if true then Frac.ltVal f m else Frac.ltVal m f)).length = 0
      · simp only [if_pos rfl] at hz ⊢
        simp [hz]
      · simp only [if_pos rfl] at hz ⊢
        simp [hz]

theorem maxIssues_ok_empty (name : String) (col : ColumnSchema) (cells : List Cell)
    (l : List ValidationIssue) (h : maxIssues name col cells = .ok l) :
    l = [] ↔
      (match col.maximum with
       | none => true
       | some m =>
         (dropNa cells).all
           (fun v => !((Cell.num? v).map (Frac.ltVal m ·)).getD false)) = true := by
  unfold maxIssues at h
  cases hm : col.maximum with
  | none =>
    rw [hm] at h
    simp at h
    subst h
    simp
  | some m =>
    rw [hm] at h
    unfold seriesCmpCount at h
    cases hn : numsOf (dropNa cells) with
    | none => rw [hn] at h; simp at h
    | some fs =>
      rw [hn] at h
      simp only [Except.ok.injEq] at h
      subst h
      simp only
      rw [← numsOf_pred (fun f => Frac.ltVal m f) (dropNa cells) fs hn]
      by_cases hz : (fs.filter (fun f => Frac.ltVal m f)).length = 0
      · simp [hz]
      · simp [hz]

theorem nullIssues_all_error (name : String) (col : ColumnSchema) (cells : List Cell) :
    (nullIssues name col cells).filter ValidationIssue.isError = nullIssues name col cells := by
  unfold nullIssues
  split <;> simp [ValidationIssue.isError]

theorem dtypeIssues_all_error (name : String) (col : ColumnSchema) (dt : Dtype) :
    (dtypeIssues name col dt).filter ValidationIssue.isError = dtypeIssues name col dt := by
  unfold dtypeIssues
  cases series_has_dtype dt col.dtype with
  | none => simp [ValidationIssue.isError]
  | some ok => cases ok <;> simp [ValidationIssue.isError]

theorem allowedIssues_all_error (name : String) (col : ColumnSchema) (cells : List Cell) :
    (allowedIssues name col cells).filter ValidationIssue.isError =
      allowedIssues name col cells := by
  unfold allowedIssues
  cases col.allowed_values with
  | none => simp
  | some allowed =>
    simp only
    split <;> simp [ValidationIssue.isError]

theorem minIssues_all_error (name : String) (col : ColumnSchema) (cells : List Cell)
    (l : List ValidationIssue) (h : minIssues name col cells = .ok l) :
    l.filter ValidationIssue.isError = l := by
  unfold minIssues at h
  split at h
  · simp only [Except.ok.injEq] at h
    subst h
    simp
  · split at h
    · simp at h
    · simp only [Except.ok.injEq] at h
      subst h
      split <;> simp [ValidationIssue.isError]

theorem maxIssues_all_error (name : String) (col : ColumnSchema) (cells : List Cell)
    (l : List ValidationIssue) (h : maxIssues name col cells = .ok l) :
    l.filter ValidationIssue.isError = l := by
  unfold maxIssues at h
  split at h
  · simp only [Except.ok.injEq] at h
    subst h
    simp
  · split at h
    · simp at h
    · simp only [Except.ok.injEq] at h
      subst h
      split <;> simp [ValidationIssue.isError]

/-- Per declared column: the loop body contributes no ERROR issue iff
the column's constraints are strictly satisfied. -/
theorem columnIssues_ok_errorFree (df : DataFrame) (col : ColumnSchema)
    (L : List ValidationIssue) (h : columnIssues df col = .ok L) :
    (L.filter ValidationIssue.isError = [] ↔ columnSatisfied df col = true) := by
  unfold columnIssues at h
  unfold columnSatisfied
  cases hidx : df.colIndex col.name with
  | none =>
    rw [hidx] at h
    simp only [columnIssuesAt, Except.ok.injEq] at h
    subst h
    cases hr : col.required <;> simp [hr, columnSatisfiedAt, ValidationIssue.isError]
  | some i =>
    rw [hidx] at h
    simp only [columnIssuesAt] at h
    simp only [columnSatisfiedAt]
    cases hmin : minIssues col.name col (df.colCells i) with
    | error e => rw [hmin] at h; simp at h
    | ok minIss =>
      rw [hmin] at h
      cases hmax : maxIssues col.name col (df.colCells i) with
      | error e => rw [hmax] at h; simp at h
      | ok maxIss =>
        rw [hmax] at h
        simp only [Except.ok.injEq] at h
        subst h
        simp only [List.filter_append, List.append_eq_nil,
          nullIssues_all_error, dtypeIssues_all_error, allowedIssues_all_error,
          minIssues_all_error col.name col _ minIss hmin,
          maxIssues_all_error col.name col _ maxIss hmax,
          Bool.and_eq_true]
        simp only [nullIssues_empty, dtypeIssues_empty, allowedIssues_empty,
          minIssues_ok_empty col.name col _ minIss hmin,
          maxIssues_ok_empty col.name col _ maxIss hmax]

theorem declaredIssues_ok_errorFree (df : DataFrame) (cols : List ColumnSchema) :
    ∀ L, declaredIssues df cols = .ok L →
      ((L.filter ValidationIssue.isError = []) ↔ cols.all (columnSatisfied df) = true) := by
  induction cols with
  | nil =>
    intro L h
    simp [declaredIssues] at h
    subst h
    simp
  | cons c cs ih =>
    intro L h
    simp only [declaredIssues] at h
    cases hc : columnIssues df c with
    | error e => rw [hc] at h; simp at h
    | ok l =>
      rw [hc] at h
      cases hcs : declaredIssues df cs with
      | error e => rw [hcs] at h; simp at h
      | ok r =>
        rw [hcs] at h
        simp only [Except.ok.injEq] at h
        subst h
        rw [List.filter_append, List.append_eq_nil, List.all_cons, Bool.and_eq_true]
        exact and_congr (columnIssues_ok_errorFree df c l hc) (ih r hcs)

theorem extraIssues_filter (df : DataFrame) (schema : SchemaDefinition) :
    (extraIssues df schema).filter ValidationIssue.isError = [] := by
  apply List.filter_eq_nil_iff.mpr
  intro i hi
  unfold extraIssues at hi
  rw [List.mem_map] at hi
  obtain ⟨n, _, rfl⟩ := hi
  simp [ValidationIssue.isError]

/-- The validator's full issue list has no ERROR entry iff the dataset
strictly satisfies the schema. -/
theorem buildIssues_errorFree (df : DataFrame) (schema : SchemaDefinition)
    (issues : List ValidationIssue) (h : buildIssues df schema = .ok issues) :
    (issues.filter ValidationIssue.isError = [] ↔
      schemaStrictlySatisfied df schema = true) := by
  unfold buildIssues at h
  cases hd : declaredIssues df schema.columns with
  | error e => rw [hd] at h; simp at h
  | ok l =>
    rw [hd] at h
    simp only [Except.ok.injEq] at h
    subst h
    rw [List.filter_append, extraIssues_filter, List.append_nil]
    exact declaredIssues_ok_errorFree df schema.columns l hd

-- ---------------------------------------------------------------------------
-- Concrete datasets used by the specification's own examples
-- ---------------------------------------------------------------------------

/-- The dataset `[{"age": 30}, {"age": 15}]` (one integer column). -/
def ageDf : DataFrame := ⟨[("age", .int64)], [[.int 30], [.int 15]]⟩

/-- The schema `age : number, minimum = 18`. -/
def ageSchema : SchemaDefinition :=
  ⟨[⟨"age", "number", true, true, none, some (Frac.ofInt 18), none, none⟩], none, none⟩

/-- The one issue the range-violation example must produce. -/
def ageIssue : ValidationIssue :=
  ⟨"ERROR", some "age", "Values below minimum", .belowMin (Frac.ofInt 18) 1⟩

def ageReport : ValidationReport := ⟨[ageIssue], hash_dataframe ageDf, none, 0⟩

/-- The dataset `[{"x": 1}]`. -/
def xDf : DataFrame := ⟨[("x", .int64)], [[.int 1]]⟩

/-- A schema requiring column `"id"` (integer, required). -/
def idSchema : SchemaDefinition :=
  ⟨[⟨"id", "integer", true, true, none, none, none, none⟩], none, none⟩

def idReport : ValidationReport :=
  ⟨[⟨"ERROR", some "id", "Missing required column", .empty⟩,
    ⟨"WARN", some "x", "Unexpected column present", .empty⟩],
   hash_dataframe xDf, none, 0⟩

-- ---------------------------------------------------------------------------
-- C1
-- ---------------------------------------------------------------------------

/-- C1: `validate_dataframe` returns a `ValidationReport` whose error set
is empty if and only if the dataset strictly satisfies every
required/nullable/dtype/range/allowed-value constraint declared in its
schema; and the rows `[{"age": 30}, {"age": 15}]` against a schema
declaring `age` as number with `minimum = 18` produce a report with
exactly one issue — an ERROR whose context is `{minimum: 18, count: 1}`. -/
theorem validate_errors_empty_iff_satisfied :
    (∀ (df : DataFrame) (schema : SchemaDefinition) (logCfg : Bool) (now : Nat)
        (r : RunResult) (report : ValidationReport),
      validate_dataframe df schema logCfg now false = .ok r →
      r.outcome = .ok report →
      (report.errors = [] ↔ schemaStrictlySatisfied df schema = true)) ∧
    validate_dataframe ageDf ageSchema false 0 false =
      .ok ⟨[], .ok ageReport⟩ := by
  constructor
  · intro df schema logCfg now r report hv ho
    unfold validate_dataframe at hv
    cases hb : buildIssues df schema with
    | error e => rw [hb] at hv; simp at hv
    | ok issues =>
      rw [hb] at hv
      simp only [Except.ok.injEq] at hv
      subst hv
      simp only [Bool.false_and, Bool.false_eq_true, if_false, Except.ok.injEq] at ho
      subst ho
      exact buildIssues_errorFree df schema issues hb
  · rfl

/-- Witness for C1: the equivalence instantiated at the range-violation
example (its hypotheses hold there by computation). -/
theorem validate_errors_empty_iff_satisfied_witness :
    validate_dataframe ageDf ageSchema false 0 false = .ok ⟨[], .ok ageReport⟩ ∧
      (ageReport.errors = [] ↔ schemaStrictlySatisfied ageDf ageSchema = true) :=
  ⟨rfl,
    validate_errors_empty_iff_satisfied.1 ageDf ageSchema false 0
      ⟨[], .ok ageReport⟩ ageReport rfl rfl⟩

-- ---------------------------------------------------------------------------
-- C6
-- ---------------------------------------------------------------------------

/-- C6: when `halt_on_error` is true and the report contains at least one
ERROR, `validate_dataframe` raises a single aggregate `ValidationError`
naming the error count, and it does so only after the report has been
built and the audit-log line (when a log path is configured) has been
appended — the log output of the halting run equals that of the
non-halting run; with `halt_on_error` false the report is returned
without raising. -/
theorem validate_halt_policy :
    ∀ (df : DataFrame) (schema : SchemaDefinition) (logCfg : Bool) (now : Nat)
      (rT rF : RunResult),
      validate_dataframe df schema logCfg now true = .ok rT →
      validate_dataframe df schema logCfg now false = .ok rF →
      ∃ report : ValidationReport,
        rF.outcome = .ok report ∧
        rT.log = rF.log ∧
        (logCfg = true → rT.log = [logLine now report]) ∧
        (logCfg = false → rT.log = []) ∧
        (report.hasErrors = true →
          rT.outcome = .error ("Validation failed with " ++
            toString report.errors.length ++ " error(s)")) ∧
        (report.hasErrors = false → rT.outcome = .ok report) := by
  intro df schema logCfg now rT rF hT hF
  unfold validate_dataframe at hT hF
  cases hb : buildIssues df schema with
  | error e => rw [hb] at hT; simp at hT
  | ok issues =>
    rw [hb] at hT
    rw [hb] at hF
    simp only [Except.ok.injEq] at hT hF
    subst hT
    subst hF
    refine ⟨⟨issues, hash_dataframe df, schema.version, now⟩, ?_, rfl, ?_, ?_, ?_, ?_⟩
    · simp
    · intro h; simp [h]
    · intro h; simp [h]
    · intro h; simp [h]
    · intro h; simp [h]

/-- Witness for C6: the halt policy instantiated at the
missing-required-column example with a configured audit log. -/
theorem validate_halt_policy_witness :
    ∃ report : ValidationReport,
      (RunResult.mk [logLine 0 idReport]
        (.ok idReport)).outcome = .ok report ∧
      (RunResult.mk [logLine 0 idReport]
        (.error "Validation failed with 1 error(s)")).log =
        (RunResult.mk [logLine 0 idReport] (.ok idReport)).log ∧
      (true = true →
        (RunResult.mk [logLine 0 idReport]
          (.error "Validation failed with 1 error(s)")).log = [logLine 0 report]) ∧
      (true = false →
        (RunResult.mk [logLine 0 idReport]
          (.error "Validation failed with 1 error(s)")).log = []) ∧
      (report.hasErrors = true →
        (RunResult.mk [logLine 0 idReport]
          (.error "Validation failed with 1 error(s)")).outcome =
          .error ("Validation failed with " ++
            toString report.errors.length ++ " error(s)")) ∧
      (report.hasErrors = false →
        (RunResult.mk [logLine 0 idReport]
          (.error "Validation failed with 1 error(s)")).outcome = .ok report) :=
  validate_halt_policy xDf idSchema true 0
    ⟨[logLine 0 idReport], .error "Validation failed with 1 error(s)"⟩
    ⟨[logLine 0 idReport], .ok idReport⟩ rfl rfl

-- ---------------------------------------------------------------------------
-- validate_charts.py : data model
-- ---------------------------------------------------------------------------

/-- One filter predicate value: an exact value or set membership
(`isinstance(expected, Iterable)` distinguishes the two in the source). -/
inductive FilterVal where
  | eq (c : Cell)
  | mem (cs : List Cell)
deriving DecidableEq

/-- `ChartSpec` (the free-form `metadata` dict, which no validated code
reads, is omitted). -/
structure ChartSpec where
  identifier : String
  kind : String
  x : String
  y : Option String := none
  aggregation : Option String := none
  filters : List (String × FilterVal) := []
  data_signature : Option String := none
  created_at : Option Nat := none
deriving DecidableEq

/-- Structured context of a `ChartIssue`. -/
inductive ChartCtx where
  | empty
  | categories (expected observed : List Cell)
  | maxDelta (max_delta : Frac)
  | values (values : List Cell)
  | stale (chart_signature data_signature : String)
deriving DecidableEq

structure ChartIssue where
  identifier : String
  level : String
  message : String
  context : ChartCtx := .empty
deriving DecidableEq

structure ChartValidationReport where
  issues : List ChartIssue
  data_signature : String
deriving DecidableEq

def ChartValidationReport.hasErrors (r : ChartValidationReport) : Bool :=
  r.issues.any (fun i => i.level == "ERROR")

-- ---------------------------------------------------------------------------
-- validate_charts.py : _apply_filters and verify_chart
-- ---------------------------------------------------------------------------

/-- Whether a cell passes one filter (pandas `==` / `isin`; `isin`
additionally matches missing data against missing data). -/
def cellPasses (c : Cell) : FilterVal → Bool
  | .eq e => cellEqPy c e
  | .mem cs => cs.any (fun e => cellEqPy c e || (c.isNull && e.isNull))

/-- `_apply_filters`: keep the rows passing every filter; an unknown
filter column raises `KeyError` immediately. -/
def apply_filters (df : DataFrame) : List (String × FilterVal) → Except PyErr DataFrame
  | [] => .ok df
  | (column, expected) :: rest =>
    match df.colIndex column with
    | none => .error (.keyError ("Filter column not found: " ++ column))
    | some i =>
      apply_filters
        ⟨df.header, df.rows.filter (fun r => cellPasses (cellAt r i) expected)⟩ rest

/-- `float(cell)` under `astype(float)`: NaN stays NaN, numbers and
booleans convert; a string raises (numeric-looking strings, which the
real `astype` would parse, are not modelled — no validated chart stores
its numbers as text). -/
def cellFloat : Cell → Except PyErr (Option Frac)
  | .null => .ok none
  | .int i => .ok (some (Frac.ofInt i))
  | .rat f => .ok (some f)
  | .bool b => .ok (some (Frac.ofInt (cond b 1 0)))
  | .str _ => .error .typeError

def cellFloats : List Cell → Except PyErr (List (Option Frac))
  | [] => .ok []
  | c :: cs =>
    match cellFloat c with
    | .error e => .error e
    | .ok f =>
      match cellFloats cs with
      | .error e => .error e
      | .ok fs => .ok (f :: fs)

/-- Strict numeric conversion of the non-null members of a group for
`mean`/`sum` (pandas raises `TypeError` on object columns there). -/
def numsOfStrict : List Cell → Except PyErr (List Frac)
  | [] => .ok []
  | c :: cs =>
    match c.num? with
    | none => .error .typeError
    | some f =>
      match numsOfStrict cs with
      | .error e => .error e
      | .ok fs => .ok (f :: fs)

def fracSum : List Frac → Frac
  | [] => Frac.ofInt 0
  | f :: fs => Frac.add f (fracSum fs)

/-- One grouped aggregation value over the non-null `y` cells of a
group: `count` counts non-null entries, `sum` adds them, `mean`
averages them (an empty group of non-null values gives NaN). -/
def aggValue (agg : String) (ys : List Cell) : Except PyErr (Option Frac) :=
  let nn := dropNa ys
  if agg == "count" then .ok (some (Frac.ofInt nn.length))
  else
    match numsOfStrict nn with
    | .error e => .error e
    | .ok fs =>
      if agg == "sum" then .ok (some (fracSum fs))
      else
        match fs with
        | [] => .ok none
        | _ => .ok (some (Frac.divNat (fracSum fs) fs.length))

/-- The sorted, de-duplicated non-null group keys of column `xi`
(`groupby` drops null keys and sorts the remaining ones). -/
def groupKeys (df : DataFrame) (xi : Nat) : List Cell :=
  insertionSort cellLe (distinctCells (dropNa (df.colCells xi)))

/-- The `y` cells of the rows whose `x` cell equals the key. -/
def groupYs (df : DataFrame) (xi yi : Nat) (key : Cell) : List Cell :=
  (df.rows.filter (fun r => cellAt r xi == key)).map (cellAt · yi)

/-- `filtered.groupby(x)[y].{mean|sum|count}()` followed by
`reset_index().sort_values(x)`: the sorted group keys paired with their
aggregated values. -/
def groupAgg (df : DataFrame) (xi yi : Nat) (agg : String) :
    Except PyErr (List (Cell × Option Frac)) :=
  let rec go : List Cell → Except PyErr (List (Cell × Option Frac))
    | [] => .ok []
    | k :: ks =>
      match aggValue agg (groupYs df xi yi k) with
      | .error e => .error e
      | .ok v =>
        match go ks with
        | .error e => .error e
        | .ok rest => .ok ((k, v) :: rest)
  go (groupKeys df xi)

/-- `chart_data.sort_values(x)` (a total order stands in for the
comparison pandas performs on homogeneous columns). -/
def sortRowsBy (rows : List (List Cell)) (i : Nat) : List (List Cell) :=
  insertionSort (fun r s => cellLe (cellAt r i) (cellAt s i)) rows

/-- `round(v, 6)` after `astype(float)`, as the integer numerator of
the rounded multiple of `1e-6` (`none` is NaN, which rounds to NaN). -/
def round6 : Option Frac → Option Int
  | none => none
  | some f => some ((f.num * 2000000 + (f.den : Int)) / ((2 * f.den : Nat) : Int))

/-- `(deltas > tolerance).any()` over paired aggregation values: a NaN
on either side never exceeds the tolerance. -/
def anyDeltaOver (tol : Frac) (exp cand : List (Option Frac)) : Bool :=
  (exp.zip cand).any (fun p =>
    match p.1, p.2 with
    | some a, some b => Frac.ltVal tol (Frac.fabs (Frac.sub a b))
    | _, _ => false)

/-- `float(deltas.max())` (NaN deltas are skipped by pandas `max`). -/
def maxDeltaOf (exp cand : List (Option Frac)) : Frac :=
  (exp.zip cand).foldl
    (fun acc p =>
      match p.1, p.2 with
      | some a, some b => Frac.maxVal acc (Frac.fabs (Frac.sub a b))
      | _, _ => acc)
    (Frac.ofInt 0)

/-- The bar-kind branch of `verify_chart`, operating on the filtered
dataset, as a function of the spec's y column and aggregation. -/
def verify_barAt (filtered : DataFrame) (spec : ChartSpec) (chart : DataFrame)
    (tol : Frac) : Option String → Option String → Except PyErr (Option ChartIssue)
  | some y, some agg =>
    match filtered.colIndex spec.x with
    | none => .error (.keyError spec.x)
    | some xi =>
      match filtered.colIndex y with
      | none => .error (.keyError y)
      | some yi =>
        if agg == "mean" || agg == "sum" || agg == "count" then
          match groupAgg filtered xi yi agg with
          | .error e => .error e
          | .ok expPairs =>
            match chart.colIndex spec.x with
            | none => .error (.keyError spec.x)
            | some cxi =>
              if expPairs.map Prod.fst == (sortRowsBy chart.rows cxi).map (cellAt · cxi) then
                match chart.colIndex y with
                | none => .error (.keyError y)
                | some cyi =>
                  match cellFloats ((sortRowsBy chart.rows cxi).map (cellAt · cyi)) with
                  | .error e => .error e
                  | .ok candY =>
                    if (expPairs.map Prod.snd).map round6 == candY.map round6 then .ok none
                    else if anyDeltaOver tol (expPairs.map Prod.snd) candY then
                      .ok (some ⟨spec.identifier, "ERROR",
                        "Aggregated values differ from data.",
                        .maxDelta (maxDeltaOf (expPairs.map Prod.snd) candY)⟩)
                    else .ok none
              else
                .ok (some ⟨spec.identifier, "ERROR",
                  "Category mismatch between chart and data.",
                  .categories (expPairs.map Prod.fst)
                    ((sortRowsBy chart.rows cxi).map (cellAt · cxi))⟩)
        else
          .ok (some ⟨spec.identifier, "ERROR",
            "Unsupported aggregation: " ++ agg, .empty⟩)
  | _, _ =>
    .ok (some ⟨spec.identifier, "ERROR",
      "Bar charts must define \x27y\x27 and \x27aggregation\x27.", .empty⟩)

/-- The bar-kind branch of `verify_chart`. -/
def verify_bar (filtered : DataFrame) (spec : ChartSpec) (chart : DataFrame)
    (tol : Frac) : Except PyErr (Option ChartIssue) :=
  verify_barAt filtered spec chart tol spec.y spec.aggregation

/-- The line-kind branch of `verify_chart`: every charted x value must
occur in the filtered data (`isin`, which also matches NaN to NaN). -/
def verify_line (filtered : DataFrame) (spec : ChartSpec) (chart : DataFrame) :
    Except PyErr (Option ChartIssue) :=
  match chart.colIndex spec.x with
  | none => .error (.keyError spec.x)
  | some cxi =>
    match filtered.colIndex spec.x with
    | none => .error (.keyError spec.x)
    | some fxi =>
      if ((chart.rows.map (cellAt · cxi)).filter
          (fun v => !((filtered.colCells fxi).any
            (fun d => cellEqPy v d || (v.isNull && d.isNull))))).isEmpty then
        .ok none
      else
        .ok (some ⟨spec.identifier, "ERROR",
          "Chart includes x-values that do not exist in the dataset.",
          .values ((chart.rows.map (cellAt · cxi)).filter
            (fun v => !((filtered.colCells fxi).any
              (fun d => cellEqPy v d || (v.isNull && d.isNull)))))⟩)

/-- The kind dispatch of `verify_chart`, given the outcome of filter
application. -/
def verify_chartAt (spec : ChartSpec) (chart : DataFrame) (tol : Frac) :
    Except PyErr DataFrame → Except PyErr (Option ChartIssue)
  | .error e => .error e
  | .ok filtered =>
    if spec.kind == "bar" then verify_bar filtered spec chart tol
    else if spec.kind == "line" then verify_line filtered spec chart
    else
      .ok (some ⟨spec.identifier, "WARN",
        "No validator registered for chart kind: " ++ spec.kind, .empty⟩)

/-- `verify_chart`: apply the spec's filters, then dispatch on the
chart kind; unmodelled kinds yield a WARN issue. -/
def verify_chart (df : DataFrame) (spec : ChartSpec) (chart : DataFrame)
    (tol : Frac) : Except PyErr (Option ChartIssue) :=
  verify_chartAt spec chart tol
    (if spec.filters.isEmpty then .ok df else apply_filters df spec.filters)

/-- The staleness issue emitted for a spec, if any: only a truthy
(non-None, non-empty) captured signature differing from the dataset's
fresh signature fires. -/
def staleIssuesAt (identifier sig : String) : Option String → List ChartIssue
  | none => []
  | some s =>
    if s ≠ "" && s ≠ sig then
      [⟨identifier, "ERROR",
        "Chart is stale relative to the dataset signature.", .stale s sig⟩]
    else []

def staleIssues (spec : ChartSpec) (sig : String) : List ChartIssue :=
  staleIssuesAt spec.identifier sig spec.data_signature

/-- The issues one spec whose chart lookup gave `chart?` contributes
to the report. -/
def specIssuesAt (df : DataFrame) (sig : String) (tol : Frac) (spec : ChartSpec) :
    Option DataFrame → Except PyErr (List ChartIssue)
  | none => .ok [⟨spec.identifier, "ERROR", "Chart output missing.", .empty⟩]
  | some chart =>
    match verify_chart df spec chart tol with
    | .error e => .error e
    | .ok res => .ok (res.toList ++ staleIssues spec sig)

/-- The issues one spec contributes to the report (the body of the
`for spec in specs` loop in `validate_charts`). -/
def specIssues (df : DataFrame) (sig : String) (charts : List (String × DataFrame))
    (tol : Frac) (spec : ChartSpec) : Except PyErr (List ChartIssue) :=
  specIssuesAt df sig tol spec (charts.lookup spec.identifier)

def chartsIssues (df : DataFrame) (sig : String) (charts : List (String × DataFrame))
    (tol : Frac) : List ChartSpec → Except PyErr (List ChartIssue)
  | [] => .ok []
  | spec :: rest =>
    match specIssues df sig charts tol spec with
    | .error e => .error e
    | .ok l =>
      match chartsIssues df sig charts tol rest with
      | .error e => .error e
      | .ok r => .ok (l ++ r)

/-- The default absolute tolerance, `1e-6`. -/
def tol6 : Frac := ⟨1, 1000000⟩

/-- `validate_charts`: the report's own signature is computed fresh
from the dataset; every spec contributes its issues in order. -/
def validate_charts (df : DataFrame) (specs : List ChartSpec)
    (charts : List (String × DataFrame)) (tol : Frac := tol6) :
    Except PyErr ChartValidationReport :=
  match chartsIssues df (hash_dataframe df) charts tol specs with
  | .error e => .error e
  | .ok issues => .ok ⟨issues, hash_dataframe df⟩

-- ---------------------------------------------------------------------------
-- Shape lemmas for verify_chart results
-- ---------------------------------------------------------------------------

/-- The staleness message (kept as a definition so statements can refer
to it). -/
def staleMessage : String := "Chart is stale relative to the dataset signature."

theorem str_data_append (s t : String) : (s ++ t).data = s.data ++ t.data := rfl

/-- Two strings whose first characters differ are distinct, even when
the first is only known up to a suffix. -/
theorem append_ne_of_head (pre x t : String) (h : pre.data.head? ≠ t.data.head?)
    (hp : pre.data ≠ []) : pre ++ x ≠ t := by
  intro heq
  apply h
  have hd : (pre ++ x).data = t.data := congrArg String.data heq
  rw [str_data_append] at hd
  rw [← hd]
  cases hpre : pre.data with
  | nil => exact absurd hpre hp
  | cons a as => simp

/-- Every issue `verify_bar` can return carries the spec's identifier
and is not a staleness issue. -/
theorem verify_bar_benign (filtered : DataFrame) (spec : ChartSpec)
    (chart : DataFrame) (tol : Frac) (i : ChartIssue)
    (h : verify_bar filtered spec chart tol = .ok (some i)) :
    i.identifier = spec.identifier ∧ i.message ≠ staleMessage := by
  unfold verify_bar verify_barAt at h
  repeat' split at h
  all_goals
    first
    | exact Except.noConfusion h
    | exact Option.noConfusion (Except.ok.inj h)
    | (cases Option.some.inj (Except.ok.inj h)
       refine ⟨rfl, ?_⟩
       dsimp only
       first
       | decide
       | exact append_ne_of_head _ _ _ (by decide) (by decide))

theorem verify_line_benign (filtered : DataFrame) (spec : ChartSpec)
    (chart : DataFrame) (i : ChartIssue)
    (h : verify_line filtered spec chart = .ok (some i)) :
    i.identifier = spec.identifier ∧ i.message ≠ staleMessage := by
  unfold verify_line at h
  repeat' split at h
  all_goals
    first
    | exact Except.noConfusion h
    | exact Option.noConfusion (Except.ok.inj h)
    | (cases Option.some.inj (Except.ok.inj h)
       refine ⟨rfl, ?_⟩
       dsimp only
       decide)

theorem verify_chart_benign (df : DataFrame) (spec : ChartSpec)
    (chart : DataFrame) (tol : Frac) (i : ChartIssue)
    (h : verify_chart df spec chart tol = .ok (some i)) :
    i.identifier = spec.identifier ∧ i.message ≠ staleMessage := by
  unfold verify_chart verify_chartAt at h
  split at h
  · simp at h
  · split at h
    · exact verify_bar_benign _ _ _ _ _ h
    · split at h
      · exact verify_line_benign _ _ _ _ h
      · simp only [Except.ok.injEq, Option.some.injEq] at h
        subst h
        exact ⟨rfl, append_ne_of_head _ _ _ (by decide) (by decide)⟩

-- ---------------------------------------------------------------------------
-- Concrete chart data (the specification's own happy-path example)
-- ---------------------------------------------------------------------------

/-- `[{"segment": "A", "score": 4}, {"segment": "A", "score": 5},
{"segment": "B", "score": 3}]`. -/
def segDf : DataFrame :=
  ⟨[("segment", .object), ("score", .int64)],
   [[.str "A", .int 4], [.str "A", .int 5], [.str "B", .int 3]]⟩

/-- The true group means of `segDf` (A ↦ 4.5, B ↦ 3.0). -/
def meanChart : DataFrame :=
  ⟨[("segment", .object), ("score", .float64)],
   [[.str "A", .rat ⟨9, 2⟩], [.str "B", .rat ⟨3, 1⟩]]⟩

/-- A bar chart spec over `segDf` grouping by segment with mean
aggregation, carrying the given captured signature. -/
def barSpec (sig : Option String) : ChartSpec :=
  ⟨"c1", "bar", "segment", some "score", some "mean", [], sig, none⟩

/-- `meanChart` with the B bar wrong (4.0 instead of 3.0). -/
def offChart : DataFrame :=
  ⟨[("segment", .object), ("score", .float64)],
   [[.str "A", .rat ⟨9, 2⟩], [.str "B", .rat ⟨4, 1⟩]]⟩

-- ---------------------------------------------------------------------------
-- C2
-- ---------------------------------------------------------------------------

theorem chartsIssues_stale_mem (df : DataFrame) (sig : String)
    (charts : List (String × DataFrame)) (tol : Frac) :
    ∀ (specs : List ChartSpec) (issues : List ChartIssue),
      chartsIssues df sig charts tol specs = .ok issues →
      ∀ spec ∈ specs, (∃ chart, charts.lookup spec.identifier = some chart) →
      ∀ s, spec.data_signature = some s → s ≠ "" → s ≠ sig →
      (⟨spec.identifier, "ERROR", staleMessage, .stale s sig⟩ : ChartIssue) ∈ issues := by
  intro specs
  induction specs with
  | nil => intro issues _ spec hmem; exact absurd hmem (List.not_mem_nil spec)
  | cons s0 rest ih =>
    intro issues h spec hmem hchart s hsig hne hnesig
    simp only [chartsIssues] at h
    cases h0 : specIssues df sig charts tol s0 with
    | error e => rw [h0] at h; simp at h
    | ok l =>
      rw [h0] at h
      cases hr : chartsIssues df sig charts tol rest with
      | error e => rw [hr] at h; simp at h
      | ok r =>
        rw [hr] at h
        simp only [Except.ok.injEq] at h
        subst h
        rcases List.mem_cons.mp hmem with rfl | hmem'
        · apply List.mem_append.mpr
          left
          obtain ⟨chart, hlk⟩ := hchart
          unfold specIssues at h0
          rw [hlk] at h0
          simp only [specIssuesAt] at h0
          cases hv : verify_chart df spec chart tol with
          | error e => rw [hv] at h0; simp at h0
          | ok res =>
            rw [hv] at h0
            simp only [Except.ok.injEq] at h0
            subst h0
            apply List.mem_append.mpr
            right
            unfold staleIssues
            rw [hsig]
            simp only [staleIssuesAt]
            rw [if_pos (by simp [hne, hnesig])]
            exact List.mem_singleton.mpr rfl
        · exact List.mem_append.mpr (Or.inr (ih r hr spec hmem' hchart s hsig hne hnesig))

/-- C2 (amended): for every chart spec in the input list whose chart
output is present in the chart map and whose captured data signature is
truthy (present and non-empty) and differs from the freshly computed
dataset signature, the returned report contains the staleness ERROR for
that chart identifier with both signatures in its context — emitted
whatever the per-chart verification produced, including when the
chart's own aggregation values match the recomputation exactly.  (The
original claim also quantified over specs whose chart output is missing
or whose captured signature is the empty string; there the loop skips
the staleness comparison.) -/
theorem validate_charts_stale_emitted :
    ∀ (df : DataFrame) (specs : List ChartSpec)
      (charts : List (String × DataFrame)) (tol : Frac) (r : ChartValidationReport),
      validate_charts df specs charts tol = .ok r →
      ∀ spec ∈ specs, (∃ chart, charts.lookup spec.identifier = some chart) →
      ∀ s, spec.data_signature = some s → s ≠ "" → s ≠ hash_dataframe df →
      (⟨spec.identifier, "ERROR", staleMessage,
        .stale s (hash_dataframe df)⟩ : ChartIssue) ∈ r.issues := by
  intro df specs charts tol r h spec hmem hchart s hsig hne hnesig
  unfold validate_charts at h
  cases hc : chartsIssues df (hash_dataframe df) charts tol specs with
  | error e => rw [hc] at h; simp at h
  | ok issues =>
    rw [hc] at h
    simp only [Except.ok.injEq] at h
    subst h
    exact chartsIssues_stale_mem df (hash_dataframe df) charts tol specs issues hc
      spec hmem hchart s hsig hne hnesig

/-- Counterexample for C2 as frozen: a spec carrying the stale captured
signature `"stale"` but whose chart output is absent from the chart map
produces only the "Chart output missing." error — no staleness issue at
all — so the staleness ERROR is not emitted for every spec with a
present-and-different captured signature. -/
theorem validate_charts_stale_missing_chart_cex :
    validate_charts segDf [barSpec (some "stale")] [] tol6 =
      .ok ⟨[⟨"c1", "ERROR", "Chart output missing.", .empty⟩], hash_dataframe segDf⟩ ∧
    (barSpec (some "stale")).data_signature = some "stale" ∧
    "stale" ≠ hash_dataframe segDf ∧
    ∀ i ∈ [(⟨"c1", "ERROR", "Chart output missing.", .empty⟩ : ChartIssue)],
      i.message ≠ staleMessage := by
  refine ⟨rfl, rfl, by decide, by decide⟩

/-- Witness for C2: the amended staleness guarantee instantiated at the
happy-path dataset with a stale spec whose chart output is present. -/
theorem validate_charts_stale_emitted_witness :
    (⟨"c1", "ERROR", staleMessage,
      .stale "stale" (hash_dataframe segDf)⟩ : ChartIssue) ∈
      (ChartValidationReport.mk
        [⟨"c1", "ERROR", staleMessage, .stale "stale" (hash_dataframe segDf)⟩]
        (hash_dataframe segDf)).issues :=
  validate_charts_stale_emitted segDf [barSpec (some "stale")] [("c1", meanChart)]
    tol6 _ rfl (barSpec (some "stale")) (List.mem_singleton.mpr rfl)
    ⟨meanChart, rfl⟩ "stale" rfl (by decide) (by decide)

-- ---------------------------------------------------------------------------
-- C9
-- ---------------------------------------------------------------------------

theorem staleIssuesAt_mem (identifier sig : String) (o : Option String)
    (i : ChartIssue) (h : i ∈ staleIssuesAt identifier sig o) :
    ∃ s, o = some s ∧ s ≠ "" ∧ s ≠ sig ∧
      i = ⟨identifier, "ERROR", staleMessage, .stale s sig⟩ := by
  cases o with
  | none => simp [staleIssuesAt] at h
  | some s =>
    simp only [staleIssuesAt] at h
    by_cases hc : (s ≠ "" && s ≠ sig) = true
    · rw [if_pos hc] at h
      simp only [Bool.and_eq_true, decide_eq_true_eq] at hc
      rcases List.mem_singleton.mp h with rfl
      exact ⟨s, rfl, hc.1, hc.2, rfl⟩
    · rw [if_neg hc] at h
      exact absurd h (List.not_mem_nil i)

theorem chartsIssues_stale_shape (df : DataFrame) (sig : String)
    (charts : List (String × DataFrame)) (tol : Frac) :
    ∀ (specs : List ChartSpec) (issues : List ChartIssue),
      chartsIssues df sig charts tol specs = .ok issues →
      ∀ i ∈ issues, i.message = staleMessage →
        ∃ s, i.context = .stale s sig ∧ s ≠ "" := by
  intro specs
  induction specs with
  | nil =>
    intro issues h i hi
    simp [chartsIssues] at h
    subst h
    exact absurd hi (List.not_mem_nil i)
  | cons s0 rest ih =>
    intro issues h i hi hmsg
    simp only [chartsIssues] at h
    cases h0 : specIssues df sig charts tol s0 with
    | error e => rw [h0] at h; simp at h
    | ok l =>
      rw [h0] at h
      cases hr : chartsIssues df sig charts tol rest with
      | error e => rw [hr] at h; simp at h
      | ok r =>
        rw [hr] at h
        simp only [Except.ok.injEq] at h
        subst h
        rcases List.mem_append.mp hi with hl | hr'
        · unfold specIssues at h0
          cases hlk : charts.lookup s0.identifier with
          | none =>
            rw [hlk] at h0
            simp only [specIssuesAt, Except.ok.injEq] at h0
            subst h0
            rcases List.mem_singleton.mp hl with rfl
            exact absurd hmsg (by show ¬ "Chart output missing." = staleMessage; decide)
          | some chart =>
            rw [hlk] at h0
            simp only [specIssuesAt] at h0
            cases hv : verify_chart df s0 chart tol with
            | error e => rw [hv] at h0; simp at h0
            | ok res =>
              rw [hv] at h0
              simp only [Except.ok.injEq] at h0
              subst h0
              rcases List.mem_append.mp hl with hres | hstale
              · cases res with
                | none => exact absurd hres (List.not_mem_nil i)
                | some j =>
                  rcases List.mem_singleton.mp hres with rfl
                  exact absurd hmsg (verify_chart_benign df s0 chart tol i hv).2
              · obtain ⟨s, _, hne, _, rfl⟩ :=
                  staleIssuesAt_mem s0.identifier sig s0.data_signature i hstale
                exact ⟨s, rfl, hne⟩
        · exact ih r hr i hr' hmsg

/-- C9: the staleness comparison only fires for truthy captured
signatures.  Every staleness issue in a returned report records a
non-empty captured signature next to the fresh dataset signature in its
context; in particular a spec whose captured `data_signature` is the
empty string — although the empty string differs from the fresh
signature — contributes no staleness issue. -/
theorem validate_charts_empty_sig_no_stale :
    (∀ (df : DataFrame) (specs : List ChartSpec)
        (charts : List (String × DataFrame)) (tol : Frac) (r : ChartValidationReport),
      validate_charts df specs charts tol = .ok r →
      ∀ i ∈ r.issues, i.message = staleMessage →
        ∃ s, i.context = .stale s (hash_dataframe df) ∧ s ≠ "") ∧
    (∀ (df : DataFrame) (spec : ChartSpec)
        (charts : List (String × DataFrame)) (tol : Frac) (r : ChartValidationReport),
      spec.data_signature = some "" →
      validate_charts df [spec] charts tol = .ok r →
      ∀ i ∈ r.issues, i.message ≠ staleMessage) := by
  constructor
  · intro df specs charts tol r h i hi hmsg
    unfold validate_charts at h
    cases hc : chartsIssues df (hash_dataframe df) charts tol specs with
    | error e => rw [hc] at h; simp at h
    | ok issues =>
      rw [hc] at h
      simp only [Except.ok.injEq] at h
      subst h
      exact chartsIssues_stale_shape df (hash_dataframe df) charts tol specs issues hc
        i hi hmsg
  · intro df spec charts tol r hempty h i hi hmsg
    unfold validate_charts at h
    cases hc : chartsIssues df (hash_dataframe df) charts tol [spec] with
    | error e => rw [hc] at h; simp at h
    | ok issues =>
      rw [hc] at h
      simp only [Except.ok.injEq] at h
      subst h
      simp only [chartsIssues] at hc
      cases h0 : specIssues df (hash_dataframe df) charts tol spec with
      | error e => rw [h0] at hc; simp at hc
      | ok l =>
        rw [h0] at hc
        simp only [chartsIssues, Except.ok.injEq] at hc
        subst hc
        unfold specIssues at h0
        cases hlk : charts.lookup spec.identifier with
        | none =>
          rw [hlk] at h0
          simp only [specIssuesAt, Except.ok.injEq] at h0
          subst h0
          simp only [List.append_nil] at hi
          rcases List.mem_singleton.mp hi with rfl
          exact absurd hmsg (by show ¬ "Chart output missing." = staleMessage; decide)
        | some chart =>
          rw [hlk] at h0
          simp only [specIssuesAt] at h0
          cases hv : verify_chart df spec chart tol with
          | error e => rw [hv] at h0; simp at h0
          | ok res =>
            rw [hv] at h0
            simp only [Except.ok.injEq] at h0
            subst h0
            simp only [List.append_nil] at hi
            rcases List.mem_append.mp hi with hres | hstale
            · cases res with
              | none => exact absurd hres (List.not_mem_nil i)
              | some j =>
                rcases List.mem_singleton.mp hres with rfl
                exact absurd hmsg (verify_chart_benign df spec chart tol i hv).2
            · unfold staleIssues at hstale
              rw [hempty] at hstale
              simp [staleIssuesAt] at hstale

/-- Witness for C9: the empty-signature guarantee instantiated at the
happy-path dataset with a chart whose values are wrong (so the report
is non-empty) and a captured signature equal to the empty string. -/
theorem validate_charts_empty_sig_no_stale_witness :
    ∀ i ∈ (ChartValidationReport.mk
        [⟨"c1", "ERROR", "Aggregated values differ from data.",
          .maxDelta ⟨1, 1⟩⟩] (hash_dataframe segDf)).issues,
      i.message ≠ staleMessage :=
  validate_charts_empty_sig_no_stale.2 segDf (barSpec (some ""))
    [("c1", offChart)] tol6 _ rfl rfl

-- ---------------------------------------------------------------------------
-- C3
-- ---------------------------------------------------------------------------

/-- The dataset `[{"x": 1, "y": 2}]`. -/
def cDf : DataFrame := ⟨[("x", .int64), ("y", .int64)], [[.int 1, .int 2]]⟩

/-- A materialized chart lacking the spec's x column. -/
def badChart : DataFrame := ⟨[("z", .int64)], [[.int 1]]⟩

/-- A bar spec over `cDf` with no filters. -/
def spec3 : ChartSpec := ⟨"c", "bar", "x", some "y", some "mean", [], none, none⟩

theorem apply_filters_colIndex (header : List (String × Dtype)) :
    ∀ (filters : List (String × FilterVal)) (rows : List (List Cell)) (df' : DataFrame),
      apply_filters ⟨header, rows⟩ filters = .ok df' → df'.header = header := by
  intro filters
  induction filters with
  | nil =>
    intro rows df' h
    simp only [apply_filters, Except.ok.injEq] at h
    subst h
    rfl
  | cons p rest ih =>
    intro rows df' h
    simp only [apply_filters] at h
    cases hidx : DataFrame.colIndex ⟨header, rows⟩ p.1 with
    | none => rw [hidx] at h; simp at h
    | some i =>
      rw [hidx] at h
      exact ih _ df' h

/-- A filter list naming a column absent from the dataset always
raises. -/
theorem apply_filters_missing_col (header : List (String × Dtype)) :
    ∀ (filters : List (String × FilterVal)) (rows : List (List Cell)),
      (∃ p ∈ filters, (DataFrame.mk header rows).colIndex p.1 = none) →
      (apply_filters ⟨header, rows⟩ filters).isOk = false := by
  intro filters
  induction filters with
  | nil =>
    intro rows h
    obtain ⟨p, hp, _⟩ := h
    exact absurd hp (List.not_mem_nil p)
  | cons q rest ih =>
    intro rows h
    simp only [apply_filters]
    cases hidx : DataFrame.colIndex ⟨header, rows⟩ q.1 with
    | none => rfl
    | some i =>
      obtain ⟨p, hp, hpnone⟩ := h
      rcases List.mem_cons.mp hp with rfl | hp'
      · rw [hidx] at hpnone; exact absurd hpnone (by simp)
      · exact ih _ ⟨p, hp', hpnone⟩

theorem chartsIssues_isOk (df : DataFrame) (sig : String)
    (charts : List (String × DataFrame)) (tol : Frac) :
    ∀ (specs : List ChartSpec),
      (chartsIssues df sig charts tol specs).isOk = false ↔
        ∃ spec ∈ specs, ∃ chart, charts.lookup spec.identifier = some chart ∧
          (verify_chart df spec chart tol).isOk = false := by
  intro specs
  induction specs with
  | nil => simp [chartsIssues, Except.isOk, Except.toBool]
  | cons s0 rest ih =>
    simp only [chartsIssues]
    constructor
    · intro h
      cases h0 : specIssues df sig charts tol s0 with
      | error e =>
        unfold specIssues at h0
        cases hlk : charts.lookup s0.identifier with
        | none => rw [hlk] at h0; simp [specIssuesAt] at h0
        | some chart =>
          rw [hlk] at h0
          simp only [specIssuesAt] at h0
          cases hv : verify_chart df s0 chart tol with
          | error e' =>
            exact ⟨s0, List.mem_cons_self s0 rest, chart, hlk, by rw [hv]; rfl⟩
          | ok res => rw [hv] at h0; simp at h0
      | ok l =>
        rw [h0] at h
        cases hr : chartsIssues df sig charts tol rest with
        | error e =>
          obtain ⟨spec, hmem, chart, hlk, hvbad⟩ := ih.mp (by rw [hr]; rfl)
          exact ⟨spec, List.mem_cons_of_mem s0 hmem, chart, hlk, hvbad⟩
        | ok r => rw [hr] at h; simp [Except.isOk, Except.toBool] at h
    · intro h
      obtain ⟨spec, hmem, chart, hlk, hvbad⟩ := h
      rcases List.mem_cons.mp hmem with rfl | hmem'
      · cases h0 : specIssues df sig charts tol spec with
        | error e => rfl
        | ok l =>
          unfold specIssues at h0
          rw [hlk] at h0
          simp only [specIssuesAt] at h0
          cases hv : verify_chart df spec chart tol with
          | error e => rw [hv] at h0; simp at h0
          | ok res => rw [hv] at hvbad; simp [Except.isOk, Except.toBool] at hvbad
      · cases h0 : specIssues df sig charts tol s0 with
        | error e => rfl
        | ok l =>
          have := ih.mpr ⟨spec, hmem', chart, hlk, hvbad⟩
          cases hr : chartsIssues df sig charts tol rest with
          | error e => rfl
          | ok r => rw [hr] at this; simp [Except.isOk, Except.toBool] at this

/-- C3 (amended): `validate_charts` raises if and only if the
verification of some spec whose chart output is present raises — a
pandas lookup failure, of which a filter column absent from the dataset
is one source (and always raises, as the second conjunct states); a
missing or ill-typed x/y column in the dataset or in the materialized
chart raises as well, so the propagated errors are not limited to
filter columns.  (The original claim's "if and only if some spec
references a missing filter column" is refuted by the counterexample.) -/
theorem validate_charts_raises_iff :
    (∀ (df : DataFrame) (specs : List ChartSpec)
        (charts : List (String × DataFrame)) (tol : Frac),
      (validate_charts df specs charts tol).isOk = false ↔
        ∃ spec ∈ specs, ∃ chart, charts.lookup spec.identifier = some chart ∧
          (verify_chart df spec chart tol).isOk = false) ∧
    (∀ (df : DataFrame) (spec : ChartSpec) (chart : DataFrame) (tol : Frac),
      (∃ p ∈ spec.filters, df.colIndex p.1 = none) →
      (verify_chart df spec chart tol).isOk = false) := by
  constructor
  · intro df specs charts tol
    rw [← chartsIssues_isOk df (hash_dataframe df) charts tol specs]
    unfold validate_charts
    cases hc : chartsIssues df (hash_dataframe df) charts tol specs <;>
      simp [Except.isOk, Except.toBool]
  · intro df spec chart tol h
    obtain ⟨p, hp, hpnone⟩ := h
    unfold verify_chart
    have hne : spec.filters.isEmpty = false := by
      cases hf : spec.filters with
      | nil => rw [hf] at hp; exact absurd hp (List.not_mem_nil p)
      | cons a b => rfl
    rw [if_neg (by simp [hne])]
    have hbad : (apply_filters df spec.filters).isOk = false := by
      have := apply_filters_missing_col df.header spec.filters df.rows
      exact this ⟨p, hp, hpnone⟩
    cases ha : apply_filters df spec.filters with
    | error e => rfl
    | ok filtered => rw [ha] at hbad; simp [Except.isOk, Except.toBool] at hbad

/-- Counterexample for C3 as frozen: a spec with *no filters at all*,
whose materialized chart lacks the x column, makes `validate_charts`
raise (`KeyError` from the pandas column lookup), refuting "raises if
and only if some spec references a filter column not in the dataset". -/
theorem validate_charts_raises_no_filter_cex :
    validate_charts cDf [spec3] [("c", badChart)] tol6 = .error (.keyError "x") ∧
    spec3.filters = [] := ⟨rfl, rfl⟩

/-- Witness for C3: the missing-filter-column conjunct instantiated at
a concrete spec filtering on a column the dataset lacks. -/
theorem validate_charts_raises_iff_witness :
    (verify_chart segDf
      ⟨"f", "bar", "segment", some "score", some "mean",
        [("zz", .eq (.int 1))], none, none⟩ meanChart tol6).isOk = false :=
  validate_charts_raises_iff.2 segDf
    ⟨"f", "bar", "segment", some "score", some "mean",
      [("zz", .eq (.int 1))], none, none⟩ meanChart tol6
    ⟨("zz", .eq (.int 1)), List.mem_singleton.mpr rfl, rfl⟩

-- ---------------------------------------------------------------------------
-- integrity.py : sha256_file, sha256_dir, write_manifest
-- ---------------------------------------------------------------------------

/-- A directory subtree: the relative POSIX paths and byte contents of
its regular files (non-regular entries are skipped by the source). -/
structure DirTree where
  files : List (String × String)
deriving DecidableEq

/-- `sha256_file`: hash of the file's bytes, `None` when absent. -/
def sha256_file : Option String → Option String
  | none => none
  | some bytes => some (sha256 bytes)

/-- The byte stream `sha256_dir` folds into its running hash: for each
regular file in sorted path order (relative-path string order, which
coincides with `sorted(d.rglob("*"))` for flat directories), the
relative path immediately followed by the raw content — no separator,
no length prefix. -/
def dirStream (d : DirTree) : String :=
  String.join ((insertionSort (fun a b => strLe a.1 b.1) d.files).map
    (fun e => e.1 ++ e.2))

/-- `sha256_dir`. -/
def sha256_dir (d : DirTree) : String := sha256 (dirStream d)

/-- The filesystem state `write_manifest` reads: the five tracked
artefacts, each absent or with known contents. -/
structure RunFs where
  report_md : Option String := none
  audit_jsonl : Option String := none
  provenance_manifest : Option String := none
  charts : Option DirTree := none
  lineage_json : Option String := none
deriving DecidableEq

/-- The artefact map, in the source's insertion order. -/
def artefactsOf (fs : RunFs) : List (String × Option String) :=
  [("report_md", sha256_file fs.report_md),
   ("audit_jsonl", sha256_file fs.audit_jsonl),
   ("provenance_manifest", sha256_file fs.provenance_manifest),
   ("charts_dir_hash", fs.charts.map sha256_dir),
   ("lineage_json", sha256_file fs.lineage_json)]

/-- JSON text of a string-or-null value (hash values contain no
characters needing escapes; escaping is therefore omitted). -/
def jsonOpt : Option String → String
  | none => "null"
  | some h => "\"" ++ h ++ "\""

/-- JSON text of the float timestamp (a fixed injective encoding
standing in for Python float formatting). -/
def jsonTs (ts : Frac) : String := toString ts.num ++ "e" ++ toString ts.den

/-- `json.dumps(record, sort_keys=True, separators=(",", ":"))`: keys
in sorted order, no incidental whitespace. -/
def canonicalPayload (ts : Frac) (arte : List (String × Option String))
    (prev : Option String) : String :=
  "\x7b\"artefacts\":\x7b" ++
    joinComma ((insertionSort (fun a b => strLe a.1 b.1) arte).map
      (fun e => "\"" ++ e.1 ++ "\":" ++ jsonOpt e.2)) ++
  "\x7d,\"prev_manifest_hash\":" ++ jsonOpt prev ++
  ",\"ts\":" ++ jsonTs ts ++ "\x7d"

/-- The persisted manifest file: the record fields plus the manifest's
own hash. -/
structure ManifestFile where
  ts : Frac
  artefacts : List (String × Option String)
  prev_manifest_hash : Option String
  manifest_hash : String
deriving DecidableEq

structure WriteResult where
  path : String
  file : ManifestFile
deriving DecidableEq

/-- `int(record["ts"])`: truncation of the (non-negative) wall-clock
seconds. -/
def tsSeconds (ts : Frac) : Int := ts.num / (ts.den : Int)

/-- `write_manifest`, with the wall clock passed explicitly as `ts`. -/
def write_manifest (fs : RunFs) (ts : Frac) (prev_hash : Option String) :
    WriteResult :=
  let arte := artefactsOf fs
  let chain_hash := sha256 (canonicalPayload ts arte prev_hash)
  { path := "integrity.manifest." ++ toString (tsSeconds ts) ++ ".json"
    file := ⟨ts, arte, prev_hash, chain_hash⟩ }

/-- Chain verification: recompute the hash from the record's other
fields and compare with the stored one. -/
def verifyManifest (m : ManifestFile) : Bool :=
  m.manifest_hash == sha256 (canonicalPayload m.ts m.artefacts m.prev_manifest_hash)

-- ---------------------------------------------------------------------------
-- C4
-- ---------------------------------------------------------------------------

/-- C4: `write_manifest` stores the supplied previous-manifest hash
verbatim, and stores as the manifest's own hash the SHA-256 of exactly
the canonical serialization (sorted keys, no incidental whitespace) of
the record's other fields — so chaining a second manifest onto the
first's hash yields `prev_manifest_hash = manifest_hash₁`, and every
written manifest passes hash recomputation. -/
theorem write_manifest_canonical_chain :
    (∀ (fs1 fs2 : RunFs) (ts1 ts2 : Frac),
      (write_manifest fs2 ts2
          (some (write_manifest fs1 ts1 none).file.manifest_hash)).file.prev_manifest_hash =
        some (write_manifest fs1 ts1 none).file.manifest_hash) ∧
    (∀ (fs : RunFs) (ts : Frac) (prev : Option String),
      (write_manifest fs ts prev).file.manifest_hash =
        sha256 (canonicalPayload ts (artefactsOf fs) prev) ∧
      verifyManifest (write_manifest fs ts prev).file = true) := by
  refine ⟨fun _ _ _ _ => rfl, fun fs ts prev => ⟨rfl, ?_⟩⟩
  simp [verifyManifest, write_manifest]

-- ---------------------------------------------------------------------------
-- C5
-- ---------------------------------------------------------------------------

/-- An output root with none of the tracked artefacts present. -/
def fs0 : RunFs := {}

/-- C5 (failing input): two `write_manifest` calls in the same
wall-clock second — here at 5.1 s and 5.9 s, with the second chained to
the first — produce the *same* manifest filename, although their
records differ; `out.write_text` then overwrites the first manifest, so
the create-once guarantee fails for same-second runs. -/
theorem write_manifest_same_second_collision :
    (write_manifest fs0 ⟨51, 10⟩ none).path =
      (write_manifest fs0 ⟨59, 10⟩
        (some (write_manifest fs0 ⟨51, 10⟩ none).file.manifest_hash)).path ∧
    (write_manifest fs0 ⟨51, 10⟩ none).path = "integrity.manifest.5.json" ∧
    (⟨51, 10⟩ : Frac) ≠ ⟨59, 10⟩ ∧
    (write_manifest fs0 ⟨51, 10⟩ none).file ≠
      (write_manifest fs0 ⟨59, 10⟩
        (some (write_manifest fs0 ⟨51, 10⟩ none).file.manifest_hash)).file := by
  refine ⟨rfl, rfl, by decide, by decide⟩

-- ---------------------------------------------------------------------------
-- C10
-- ---------------------------------------------------------------------------

/-- A directory holding one file `ab` with content `c`. -/
def treeAB : DirTree := ⟨[("ab", "c")]⟩

/-- A directory holding one file `a` with content `bc`. -/
def treeA : DirTree := ⟨[("a", "bc")]⟩

/-- C10: `sha256_dir` folds each file's root-relative path and raw
content into one running hash with no separator or length prefix, so
the two distinct trees `{ab ↦ "c"}` and `{a ↦ "bc"}` fold to the
identical byte stream `"abc"` and receive the same subtree digest. -/
theorem sha256_dir_no_separator_collision :
    treeAB ≠ treeA ∧
    dirStream treeAB = "abc" ∧
    dirStream treeA = "abc" ∧
    sha256_dir treeAB = sha256_dir treeA := by
  refine ⟨by decide, rfl, rfl, rfl⟩

-- ---------------------------------------------------------------------------
-- C7
-- ---------------------------------------------------------------------------

/-- `[{"a": 1}]` with an integer cell. -/
def d7a : DataFrame := ⟨[("a", .int64)], [[.int 1]]⟩

/-- `[{"a": "1"}]`: the same frame after mutating the cell to the
string `"1"` (which retypes the column to `object`). -/
def d7b : DataFrame := ⟨[("a", .object)], [[.str "1"]]⟩

/-- Counterexample for C7 as frozen: mutating the single cell from the
integer `1` to the string `"1"` changes the dataset but leaves the CSV
serialization — and hence the Data Signature — unchanged. -/
theorem hash_dataframe_mutation_cex :
    d7a ≠ d7b ∧ hash_dataframe d7a = hash_dataframe d7b := by
  exact ⟨by decide, rfl⟩

theorem csvBody_append_len (row : List Cell) :
    ∀ rs : List (List Cell),
      (csvBody (rs ++ [row])).length = (csvBody rs).length + (csvRow row).length := by
  intro rs
  induction rs with
  | nil => simp [csvBody, csvRow]
  | cons r rest ih =>
    simp only [List.cons_append, csvBody, String.length_append, List.append_eq, ih]
    omega

/-- C7 (amended): the Data Signature is an injective image of the
canonical CSV serialization — two datasets share a signature exactly
when they serialize identically.  Adding (or, symmetrically, removing)
a row always changes the serialization and therefore the signature;
a cell mutation or row permutation changes the signature iff it changes
the CSV text, and mutations with identical canonical text (such as
integer `1` to string `"1"`) or permutations that fix the row sequence
do not. -/
theorem hash_dataframe_sensitivity :
    (∀ d1 d2 : DataFrame, hash_dataframe d1 = hash_dataframe d2 ↔ toCsv d1 = toCsv d2) ∧
    (∀ (d : DataFrame) (row : List Cell),
      hash_dataframe ⟨d.header, d.rows ++ [row]⟩ ≠ hash_dataframe d) := by
  constructor
  · intro d1 d2
    exact Iff.rfl
  · intro d row heq
    have hlen := congrArg String.length heq
    simp only [hash_dataframe, sha256, toCsv, DataFrame.colNames,
      String.length_append, csvBody_append_len row d.rows] at hlen
    have hr : 0 < (csvRow row).length := by
      have h1 : ("\n").length = 1 := rfl
      simp [csvRow, String.length_append, h1]
    omega

-- ---------------------------------------------------------------------------
-- C8 : claim-side definitions
-- ---------------------------------------------------------------------------

/-- The recomputed aggregation for a bar spec: filters applied, then
the grouped aggregation, sorted by the x column (as `verify_chart`
recomputes it). -/
def barRecomputedAt (x : String) : Except PyErr DataFrame →
    Option String → Option String → Except PyErr (List (Cell × Option Frac))
  | .error e, _, _ => .error e
  | .ok filtered, some y, some agg =>
    match filtered.colIndex x with
    | none => .error (.keyError x)
    | some xi =>
      match filtered.colIndex y with
      | none => .error (.keyError y)
      | some yi => groupAgg filtered xi yi agg
  | .ok _, _, _ => .error .typeError

def barRecomputed (df : DataFrame) (spec : ChartSpec) :
    Except PyErr (List (Cell × Option Frac)) :=
  barRecomputedAt spec.x
    (if spec.filters.isEmpty then .ok df else apply_filters df spec.filters)
    spec.y spec.aggregation

/-- The materialized chart sorted by the x column: its x categories
paired with its y values as floats. -/
def barChartPairsAt (chart : DataFrame) (x : String) :
    Option String → Except PyErr (List (Cell × Option Frac))
  | none => .error .typeError
  | some y =>
    match chart.colIndex x with
    | none => .error (.keyError x)
    | some cxi =>
      match chart.colIndex y with
      | none => .error (.keyError y)
      | some cyi =>
        match cellFloats ((sortRowsBy chart.rows cxi).map (cellAt · cyi)) with
        | .error e => .error e
        | .ok candY => .ok (((sortRowsBy chart.rows cxi).map (cellAt · cxi)).zip candY)

def barChartPairs (chart : DataFrame) (spec : ChartSpec) :
    Except PyErr (List (Cell × Option Frac)) :=
  barChartPairsAt chart spec.x spec.y

/-- One aggregated value matches its charted counterpart within the
absolute tolerance, with positions where either side is NaN treated as
matching (the code's NaN deltas never exceed any tolerance). -/
def valueWithinTol (tol : Frac) : Option Frac → Option Frac → Bool
  | some a, some b => Frac.leVal (Frac.fabs (Frac.sub a b)) tol
  | _, _ => true

def pairsWithinTol (tol : Frac) (e c : List (Option Frac)) : Bool :=
  (e.zip c).all (fun p => valueWithinTol tol p.1 p.2)

/-- The specification's unqualified reading of "the value matches the
recomputation within the absolute tolerance": both values are numbers
within `tol` of each other (a NaN matches nothing). -/
def specValueMatches (tol : Frac) : Option Frac → Option Frac → Bool
  | some a, some b => Frac.leVal (Frac.fabs (Frac.sub a b)) tol
  | _, _ => false

/-- All float values in the list are representable (positive
denominators) — true of anything a pandas float column can hold. -/
def optValsWF (l : List (Option Frac)) : Bool :=
  l.all (fun o => match o with | some f => decide (0 < f.den) | none => true)

-- ---------------------------------------------------------------------------
-- C8 : list and Bool lemmas
-- ---------------------------------------------------------------------------

theorem cellFloats_length : ∀ (l : List Cell) (fs : List (Option Frac)),
    cellFloats l = .ok fs → fs.length = l.length := by
  intro l
  induction l with
  | nil => intro fs h; simp [cellFloats] at h; subst h; rfl
  | cons c cs ih =>
    intro fs h
    simp only [cellFloats] at h
    cases hc : cellFloat c with
    | error e => rw [hc] at h; simp at h
    | ok f =>
      rw [hc] at h
      cases hcs : cellFloats cs with
      | error e => rw [hcs] at h; simp at h
      | ok gs =>
        rw [hcs] at h
        simp only [Except.ok.injEq] at h
        subst h
        simp [ih gs hcs]

theorem int_lt_decide_not_le (x y : Int) : decide (x < y) = !decide (y ≤ x) := by
  by_cases h : y ≤ x
  · simp [h, not_lt.mpr h]
  · simp [h, lt_of_not_le h]

theorem anyDeltaOver_not_within (tol : Frac) :
    ∀ (e c : List (Option Frac)),
      anyDeltaOver tol e c = !(pairsWithinTol tol e c) := by
  intro e
  induction e with
  | nil => intro c; simp [anyDeltaOver, pairsWithinTol]
  | cons a as ih =>
    intro c
    cases c with
    | nil => simp [anyDeltaOver, pairsWithinTol]
    | cons b bs =>
      show ((match a, b with
          | some fa, some fb => Frac.ltVal tol (Frac.fabs (Frac.sub fa fb))
          | _, _ => false) || anyDeltaOver tol as bs) =
        !(valueWithinTol tol a b && pairsWithinTol tol as bs)
      rw [Bool.not_and, ih bs]
      congr 1
      cases a with
      | none => cases b <;> simp [valueWithinTol]
      | some fa =>
        cases b with
        | none => simp [valueWithinTol]
        | some fb =>
          simp only [valueWithinTol, Frac.ltVal, Frac.leVal]
          exact int_lt_decide_not_le _ _

-- ---------------------------------------------------------------------------
-- C8 : exact-arithmetic lemmas about Frac and round6
-- ---------------------------------------------------------------------------

theorem Frac.toRat_sub (a b : Frac) (ha : a.den ≠ 0) (hb : b.den ≠ 0) :
    (Frac.sub a b).toRat = a.toRat - b.toRat := by
  unfold Frac.sub Frac.toRat
  have ha' : (a.den : ℚ) ≠ 0 := by exact_mod_cast ha
  have hb' : (b.den : ℚ) ≠ 0 := by exact_mod_cast hb
  push_cast
  field_simp
  ring

theorem Frac.toRat_fabs (a : Frac) : (Frac.fabs a).toRat = |a.toRat| := by
  unfold Frac.fabs Frac.toRat
  rw [abs_div]
  congr 1
  · have h1 : ((Int.ofNat a.num.natAbs : ℤ) : ℚ) = ((a.num.natAbs : ℕ) : ℚ) := by
      norm_cast
    rw [h1, Int.cast_natAbs]
    exact Int.cast_abs
  · exact (abs_of_nonneg (by positivity)).symm

theorem Frac.leVal_iff (a b : Frac) (ha : 0 < a.den) (hb : 0 < b.den) :
    (Frac.leVal a b = true) ↔ a.toRat ≤ b.toRat := by
  unfold Frac.leVal Frac.toRat
  rw [decide_eq_true_eq]
  have ha' : (0 : ℚ) < (a.den : ℚ) := by exact_mod_cast ha
  have hb' : (0 : ℚ) < (b.den : ℚ) := by exact_mod_cast hb
  rw [div_le_div_iff₀ ha' hb']
  constructor
  · intro h
    exact_mod_cast h
  · intro h
    exact_mod_cast h

/-- `round6` computes `⌊v·10⁶ + 1/2⌋` of the represented value. -/
theorem round6_eq_floor (f : Frac) (hf : 0 < f.den) :
    round6 (some f) = some ⌊f.toRat * 1000000 + 1 / 2⌋ := by
  unfold round6
  have hf' : (0 : ℚ) < (f.den : ℚ) := by exact_mod_cast hf
  have harg : f.toRat * 1000000 + 1 / 2 =
      ((f.num * 2000000 + (f.den : Int) : Int) : ℚ) / ((2 * f.den : Nat) : ℚ) := by
    unfold Frac.toRat
    push_cast
    field_simp
    ring
  rw [harg, Rat.floor_intCast_div_natCast]

theorem floor_eq_abs_lt_one (x y : ℚ) (h : ⌊x⌋ = ⌊y⌋) : |x - y| < 1 := by
  have h1 := Int.floor_le x
  have h2 := Int.lt_floor_add_one x
  have h3 := Int.floor_le y
  have h4 := Int.lt_floor_add_one y
  rw [h] at h1 h2
  rw [abs_sub_lt_iff]
  constructor <;> linarith

/-- If two representable values round to the same multiple of `1e-6`,
they are within the default tolerance of each other. -/
theorem round6_close (a b : Frac) (ha : 0 < a.den) (hb : 0 < b.den)
    (h : round6 (some a) = round6 (some b)) :
    Frac.leVal (Frac.fabs (Frac.sub a b)) tol6 = true := by
  rw [round6_eq_floor a ha, round6_eq_floor b hb] at h
  simp only [Option.some.injEq] at h
  have hclose : |a.toRat - b.toRat| < 1 / 1000000 := by
    have h1 : |(a.toRat * 1000000 + 1 / 2) - (b.toRat * 1000000 + 1 / 2)| < 1 :=
      floor_eq_abs_lt_one _ _ h
    have h2 : (a.toRat * 1000000 + 1 / 2) - (b.toRat * 1000000 + 1 / 2) =
        (a.toRat - b.toRat) * 1000000 := by ring
    rw [h2, abs_mul] at h1
    have h3 : |(1000000 : ℚ)| = 1000000 := by norm_num
    rw [h3] at h1
    linarith [abs_nonneg (a.toRat - b.toRat)]
  have hd : 0 < (Frac.fabs (Frac.sub a b)).den := by
    unfold Frac.fabs Frac.sub
    exact Nat.mul_pos ha hb
  have ht : (0 : Nat) < tol6.den := by decide
  rw [Frac.leVal_iff _ _ hd ht]
  rw [Frac.toRat_fabs, Frac.toRat_sub a b ha.ne' hb.ne']
  have : tol6.toRat = 1 / 1000000 := by
    unfold tol6 Frac.toRat
    norm_num
  rw [this]
  exact le_of_lt hclose

theorem rounds_eq_withinTol : ∀ (e c : List (Option Frac)),
    optValsWF e = true → optValsWF c = true →
    e.map round6 = c.map round6 → pairsWithinTol tol6 e c = true := by
  intro e
  induction e with
  | nil =>
    intro c _ _ _
    cases c <;> rfl
  | cons a as ih =>
    intro c hwe hwc h
    cases c with
    | nil => simp at h
    | cons b bs =>
      simp only [List.map_cons, List.cons.injEq] at h
      obtain ⟨h1, h2⟩ := h
      simp only [optValsWF, List.all_cons, Bool.and_eq_true] at hwe hwc
      show (valueWithinTol tol6 a b && pairsWithinTol tol6 as bs) = true
      rw [Bool.and_eq_true]
      refine ⟨?_, ih bs hwe.2 hwc.2 h2⟩
      cases a with
      | none =>
        cases b with
        | none => rfl
        | some fb => simp [round6] at h1
      | some fa =>
        cases b with
        | none => simp [round6] at h1
        | some fb =>
          have hfa : 0 < fa.den := by simpa using hwe.1
          have hfb : 0 < fb.den := by simpa using hwc.1
          exact round6_close fa fb hfa hfb h1

/-- C8 (amended): for a bar-kind spec with a y column and an
aggregation in {mean, sum, count}, when `verify_chart` returns rather
than raising: it reports no issue iff, after sorting both the
recomputed aggregation over the filtered subset and the materialized
chart by the x column, the x categories agree exactly in content and
order and every aggregated value pair both of whose sides are numbers
agrees within the default absolute tolerance `1e-6` — a pair with NaN
on either side is never flagged (the refinement the counterexample
forces on the frozen claim).  A category mismatch yields an ERROR with
both category lists in context; a value mismatch yields an ERROR whose
context holds the maximum observed delta. -/
theorem verify_chart_bar_iff :
    ∀ (df : DataFrame) (spec : ChartSpec) (chart : DataFrame)
      (exp cand : List (Cell × Option Frac)) (res : Option ChartIssue),
      spec.kind = "bar" →
      (spec.aggregation = some "mean" ∨ spec.aggregation = some "sum" ∨
        spec.aggregation = some "count") →
      barRecomputed df spec = .ok exp →
      barChartPairs chart spec = .ok cand →
      optValsWF (exp.map Prod.snd) = true →
      optValsWF (cand.map Prod.snd) = true →
      verify_chart df spec chart tol6 = .ok res →
      ((res = none) ↔
        (exp.map Prod.fst = cand.map Prod.fst ∧
          pairsWithinTol tol6 (exp.map Prod.snd) (cand.map Prod.snd) = true)) ∧
      (exp.map Prod.fst ≠ cand.map Prod.fst →
        res = some ⟨spec.identifier, "ERROR",
          "Category mismatch between chart and data.",
          .categories (exp.map Prod.fst) (cand.map Prod.fst)⟩) ∧
      (exp.map Prod.fst = cand.map Prod.fst →
        pairsWithinTol tol6 (exp.map Prod.snd) (cand.map Prod.snd) = false →
        res = some ⟨spec.identifier, "ERROR",
          "Aggregated values differ from data.",
          .maxDelta (maxDeltaOf (exp.map Prod.snd) (cand.map Prod.snd))⟩) := by
  intro df spec chart exp cand res hkind hagg hexp hcand hwe hwc hv
  obtain ⟨agg, hagga, haggok⟩ :
      ∃ agg, spec.aggregation = some agg ∧
        ((agg == "mean" || agg == "sum" || agg == "count") = true) := by
    rcases hagg with h | h | h
    · exact ⟨"mean", h, rfl⟩
    · exact ⟨"sum", h, rfl⟩
    · exact ⟨"count", h, rfl⟩
  unfold verify_chart at hv
  unfold barRecomputed at hexp
  unfold barChartPairs at hcand
  cases hf : (if spec.filters.isEmpty then Except.ok df
      else apply_filters df spec.filters) with
  | error e =>
    rw [hf] at hexp
    simp [barRecomputedAt] at hexp
  | ok filtered =>
    rw [hf] at hv hexp
    simp only [verify_chartAt] at hv
    rw [hkind] at hv
    rw [if_pos (show (("bar" : String) == "bar") = true from rfl)] at hv
    cases hy : spec.y with
    | none =>
      rw [hy, hagga] at hexp
      simp [barRecomputedAt] at hexp
    | some y =>
      rw [hy, hagga] at hexp
      rw [hy] at hcand
      simp only [barRecomputedAt] at hexp
      simp only [barChartPairsAt] at hcand
      unfold verify_bar at hv
      rw [hy, hagga] at hv
      simp only [verify_barAt] at hv
      -- hexp down to groupAgg
      split at hexp
      · simp at hexp
      · rename_i xi hxi
        split at hexp
        · simp at hexp
        · rename_i yi hyi
          -- hcand down to the sorted zip
          split at hcand
          · simp at hcand
          · rename_i cxi hcxi
            split at hcand
            · simp at hcand
            · rename_i cyi hcyi
              split at hcand
              · simp at hcand
              · rename_i candY hfl
                simp only [Except.ok.injEq] at hcand
                -- facts about cand
                have hlenY : candY.length =
                    ((sortRowsBy chart.rows cxi).map (cellAt · cxi)).length := by
                  rw [cellFloats_length _ _ hfl]
                  simp
                have hcandfst : cand.map Prod.fst =
                    (sortRowsBy chart.rows cxi).map (cellAt · cxi) := by
                  rw [← hcand]
                  exact List.map_fst_zip _ _ (le_of_eq hlenY.symm)
                have hcandsnd : cand.map Prod.snd = candY := by
                  rw [← hcand]
                  exact List.map_snd_zip _ _ (le_of_eq hlenY)
                -- hv down the same path
                split at hv
                · rename_i heq
                  rw [hxi] at heq
                  exact Option.noConfusion heq
                · rename_i xi' hxi'
                  obtain rfl : xi = xi' :=
                    Option.some.inj (hxi.symm.trans hxi')
                  split at hv
                  · rename_i heq
                    rw [hyi] at heq
                    exact Option.noConfusion heq
                  · rename_i yi' hyi'
                    obtain rfl : yi = yi' :=
                      Option.some.inj (hyi.symm.trans hyi')
                    split at hv
                    · -- aggregation recognised
                      split at hv
                      · rename_i e heqg
                        rw [hexp] at heqg
                        exact Except.noConfusion heqg
                      · rename_i expPairs heqg
                        obtain rfl : exp = expPairs :=
                          (Except.ok.inj (hexp.symm.trans heqg))
                        split at hv
                        · rename_i heq
                          rw [hcxi] at heq
                          exact Option.noConfusion heq
                        · rename_i cxi' hcxi'
                          obtain rfl : cxi = cxi' :=
                            Option.some.inj (hcxi.symm.trans hcxi')
                          split at hv
                          · -- categories agree
                            rename_i hcats
                            have hcatsEq : exp.map Prod.fst = cand.map Prod.fst := by
                              rw [hcandfst]
                              exact eq_of_beq hcats
                            split at hv
                            · rename_i heq
                              rw [hcyi] at heq
                              exact Option.noConfusion heq
                            · rename_i cyi' hcyi'
                              obtain rfl : cyi = cyi' :=
                                Option.some.inj (hcyi.symm.trans hcyi')
                              split at hv
                              · rename_i e heqf
                                rw [hfl] at heqf
                                exact Except.noConfusion heqf
                              · rename_i candY' hfl'
                                obtain rfl : candY = candY' :=
                                  (Except.ok.inj (hfl.symm.trans hfl'))
                                split at hv
                                · -- rounded values equal: no issue
                                  rename_i hround
                                  simp only [Except.ok.injEq] at hv
                                  subst hv
                                  have hwithin :
                                      pairsWithinTol tol6 (exp.map Prod.snd)
                                        (cand.map Prod.snd) = true := by
                                    rw [hcandsnd]
                                    exact rounds_eq_withinTol _ _ hwe
                                      (hcandsnd ▸ hwc) (eq_of_beq hround)
                                  refine ⟨?_, ?_, ?_⟩
                                  · exact ⟨fun _ => ⟨hcatsEq, hwithin⟩, fun _ => rfl⟩
                                  · intro hne
                                    exact absurd hcatsEq hne
                                  · intro _ hfalse
                                    rw [hwithin] at hfalse
                                    exact Bool.noConfusion hfalse
                                · -- rounded values differ
                                  rename_i hround
                                  split at hv
                                  · -- a delta exceeds the tolerance
                                    rename_i hdelta
                                    simp only [Except.ok.injEq] at hv
                                    subst hv
                                    have hfalse :
                                        pairsWithinTol tol6 (exp.map Prod.snd)
                                          (cand.map Prod.snd) = false := by
                                      have h1 := anyDeltaOver_not_within tol6
                                        (exp.map Prod.snd) candY
                                      rw [hdelta] at h1
                                      rw [hcandsnd]
                                      cases h2 : pairsWithinTol tol6
                                          (exp.map Prod.snd) candY
                                      · rfl
                                      · rw [h2] at h1; exact absurd h1.symm (by simp)
                                    refine ⟨?_, ?_, ?_⟩
                                    · constructor
                                      · intro h; exact Option.noConfusion h
                                      · intro ⟨_, hw⟩
                                        rw [hw] at hfalse
                                        exact Bool.noConfusion hfalse
                                    · intro hne
                                      exact absurd hcatsEq hne
                                    · intro _ _
                                      rw [hcandsnd]
                                  · -- all deltas within tolerance: no issue
                                    rename_i hdelta
                                    simp only [Except.ok.injEq] at hv
                                    subst hv
                                    have htrue :
                                        pairsWithinTol tol6 (exp.map Prod.snd)
                                          (cand.map Prod.snd) = true := by
                                      have h1 := anyDeltaOver_not_within tol6
                                        (exp.map Prod.snd) candY
                                      rw [hcandsnd]
                                      cases h2 : pairsWithinTol tol6
                                          (exp.map Prod.snd) candY
                                      · rw [h2] at h1
                                        simp only [Bool.not_false] at h1
                                        exact absurd h1 hdelta
                                      · rfl
                                    refine ⟨?_, ?_, ?_⟩
                                    · exact ⟨fun _ => ⟨hcatsEq, htrue⟩, fun _ => rfl⟩
                                    · intro hne
                                      exact absurd hcatsEq hne
                                    · intro _ hfalse
                                      rw [htrue] at hfalse
                                      exact Bool.noConfusion hfalse
                          · -- categories differ
                            rename_i hcats
                            have hcatsNe : exp.map Prod.fst ≠ cand.map Prod.fst := by
                              rw [hcandfst]
                              intro h
                              exact hcats (by rw [h]; exact beq_self_eq_true _)
                            simp only [Except.ok.injEq] at hv
                            subst hv
                            refine ⟨?_, ?_, ?_⟩
                            · constructor
                              · intro h; exact Option.noConfusion h
                              · intro ⟨hc, _⟩
                                exact absurd hc hcatsNe
                            · intro _
                              rw [hcandfst]
                            · intro hc
                              exact absurd hc hcatsNe
                    · -- aggregation not recognised: contradicts the hypothesis
                      rename_i hbad
                      exact absurd haggok hbad

/-- `[{"x": "A", "y": 4.0}]`. -/
def nanDf : DataFrame :=
  ⟨[("x", .object), ("y", .float64)], [[.str "A", .rat ⟨4, 1⟩]]⟩

/-- A materialized chart whose single bar value is NaN. -/
def nanChart : DataFrame :=
  ⟨[("x", .object), ("y", .float64)], [[.str "A", .null]]⟩

/-- A bar/mean spec over `nanDf`. -/
def spec8 : ChartSpec := ⟨"c8", "bar", "x", some "y", some "mean", [], none, none⟩

/-- Counterexample for C8 as frozen: the chart stores NaN where the
recomputation gives 4.0.  NaN does not match 4.0 within any tolerance,
yet `verify_chart` returns no issue, because the NaN delta compares
false against the tolerance — refuting "no issue only if every
aggregated value matches the recomputation within the tolerance". -/
theorem verify_chart_bar_nan_cex :
    verify_chart nanDf spec8 nanChart tol6 = .ok none ∧
    barRecomputed nanDf spec8 = .ok [(.str "A", some ⟨4, 1⟩)] ∧
    barChartPairs nanChart spec8 = .ok [(.str "A", none)] ∧
    specValueMatches tol6 (some ⟨4, 1⟩) none = false :=
  ⟨rfl, rfl, rfl, rfl⟩

/-- The pairs both the recomputation and the chart produce on the
happy-path example. -/
def barPairs8 : List (Cell × Option Frac) :=
  [(.str "A", some ⟨9, 2⟩), (.str "B", some ⟨3, 1⟩)]

/-- Witness for C8: the amended equivalence instantiated at the
specification's happy-path example (all hypotheses hold there by
computation). -/
theorem verify_chart_bar_iff_witness :
    ((none : Option ChartIssue) = none ↔
      (barPairs8.map Prod.fst = barPairs8.map Prod.fst ∧
        pairsWithinTol tol6 (barPairs8.map Prod.snd)
          (barPairs8.map Prod.snd) = true)) :=
  (verify_chart_bar_iff segDf (barSpec none) meanChart barPairs8 barPairs8 none
    rfl (Or.inl rfl) rfl rfl (by decide) (by decide) rfl).1
